import Mathlib

/-!
# GLEngine: the frame-composition pipeline of `src/main.cpp`

A shallow embedding of the parts of `main.cpp` that the specification talks
about: `lerp`, the sample-kernel and noise loops of `ssaoSetup`, the lazily
created full-screen quad, the command sequence of one frame of the main loop,
the timing-query polling loop, the overlay sliders, `key_callback` and the
blur of the occlusion buffer.

Conventions of the embedding.

* `lerp` is written once, over any type with `+`, `*` and `-`.  For the
  endpoints of `lerp` it is used at the type `GLfloat`, a model of IEEE
  binary32 with rounding to nearest, ties to even, subnormals and overflow.
* For the kernel and the noise, `GLfloat` arithmetic is exact arithmetic in a
  field `α` (the definitions run on `ℚ`, the theorems are stated for every
  ordered field, `ℝ` included), without rounding.  The one IEEE rule modelled
  there is division by zero inside `glm::normalize`: `1 / sqrt 0` is infinite
  and `0 * inf` is NaN, so the normalised zero vector is the NaN vector,
  written `none`.
* The numbers that the local `generator` of `ssaoSetup` yields are a parameter
  `d : Nat → α`; `randomFloats` consumes it from the front.  The engine of the
  standard library that produces them is a parameter `Engine`.
* C++ does not fix the order in which the arguments of a constructor call are
  evaluated; the order is a parameter `ArgEval` of `ssaoSetup`.
* `inversesqrt` (used by `glm::normalize`) is a parameter as well.
* OpenGL calls are recorded as a list of commands `Cmd`.
* The constants of `glfw3.h` are a parameter `Glfw`; `glfw3` holds the values
  of the header.
* The array `keys` is a list of 1024 booleans.
-/

namespace GLEngine

set_option autoImplicit false

/-! ## Vectors and `lerp` -/

/-- A `glm::vec3` whose three components are finite numbers. -/
structure Vec3 (α : Type) where
  x : α
  y : α
  z : α
deriving DecidableEq

/-- The function `lerp` of main.cpp, `return x + a * (y - x);`. -/
def lerp {α : Type} [Add α] [Mul α] [Sub α] (x y a : α) : α :=
  x + a * (y - x)

/-! ## GLfloat: IEEE binary32 -/

/-- The integer part of the binary logarithm, by halving at most `fuel`
times. -/
def log2Fuel : Nat → Nat → Nat
  | 0, _ => 0
  | fuel + 1, a => if 2 ≤ a then log2Fuel fuel (a / 2) + 1 else 0

/-- The integer part of the binary logarithm of `a` (0 for `a = 0`). -/
def floorLog2 (a : Nat) : Nat :=
  log2Fuel a a

/-- The integer nearest to `N / D`, the even one of the two when `N / D` lies
half way between them. -/
def roundHalfEven (N D : Nat) : Nat :=
  if 2 * (N % D) < D then N / D
  else if D < 2 * (N % D) then N / D + 1
  else N / D + (N / D) % 2

/-- The magnitude `a * 2^-k`, with `a` not 0, rounded to binary32, in units of
`2^-149`.  With `e` the binary exponent of the magnitude, the unit in the
last place is `2^u` for `u = max e (-126) - 23` (24 significant bits, fewer
for subnormal numbers), and the magnitude is rounded to a multiple of it. -/
def roundMagnitude (a k : Nat) : Nat :=
  let e : Int := (floorLog2 a : Int) - (k : Int)
  let u : Int := max e (-126) - 23
  let t : Int := (k : Int) + u
  roundHalfEven (a * 2 ^ (-t).toNat) (2 ^ t.toNat) * 2 ^ (u + 149).toNat

/-- A value of type `GLfloat`, an IEEE binary32 number: `finite n` is the
finite number `n * 2^-149` (every finite binary32 number is such a multiple
of the least subnormal number), `nonfinite` is an infinity or a NaN. -/
inductive GLfloat
  | finite (n : Int)
  | nonfinite
deriving DecidableEq

/-- The number `m * 2^-k` rounded to binary32, to nearest and ties to even; a
result of magnitude `2^128` or more overflows to an infinity. -/
def GLfloat.round (m : Int) (k : Nat) : GLfloat :=
  if m = 0 then GLfloat.finite 0
  else if 2 ^ 128 * 2 ^ 149 ≤ roundMagnitude m.natAbs k then GLfloat.nonfinite
  else GLfloat.finite (if m < 0 then -(roundMagnitude m.natAbs k : Int)
    else (roundMagnitude m.natAbs k : Int))

/-- The sum of two GLfloat values: the exact sum, rounded.  An operand that
is an infinity or a NaN gives an infinity or a NaN. -/
instance GLfloat.instAdd : Add GLfloat :=
  ⟨fun x y => match x, y with
    | GLfloat.finite a, GLfloat.finite b => GLfloat.round (a + b) 149
    | _, _ => GLfloat.nonfinite⟩

/-- The difference of two GLfloat values: the exact difference, rounded. -/
instance GLfloat.instSub : Sub GLfloat :=
  ⟨fun x y => match x, y with
    | GLfloat.finite a, GLfloat.finite b => GLfloat.round (a - b) 149
    | _, _ => GLfloat.nonfinite⟩

/-- The product of two GLfloat values: the exact product, which is a multiple
of `2^-298`, rounded.  A zero times an infinity is a NaN. -/
instance GLfloat.instMul : Mul GLfloat :=
  ⟨fun x y => match x, y with
    | GLfloat.finite a, GLfloat.finite b => GLfloat.round (a * b) 298
    | _, _ => GLfloat.nonfinite⟩

/-- The GLfloat nearest to the integer `z`. -/
def GLfloat.ofInt (z : Int) : GLfloat :=
  GLfloat.round z 0

/-- The GLfloat `0.3f`, which is 5033165 * 2^-24. -/
def GLfloat.f03 : GLfloat :=
  GLfloat.finite (5033165 * 2 ^ 125)

/-- The GLfloat `0.1f`, which is 13421773 * 2^-27. -/
def GLfloat.f01 : GLfloat :=
  GLfloat.finite (13421773 * 2 ^ 122)

/-- The largest finite GLfloat, (2^24 - 1) * 2^104, in units of 2^-149. -/
def GLfloat.maxFinite : Int :=
  (2 ^ 24 - 1) * 2 ^ 253

/-- The `glm::dot` product of two vectors. -/
def Vec3.dot {α : Type} [Add α] [Mul α] (a b : Vec3 α) : α :=
  a.x * b.x + a.y * b.y + a.z * b.z

/-- Multiplication of a vector by a scalar, `sample *= k`. -/
def Vec3.smul {α : Type} [Mul α] (v : Vec3 α) (k : α) : Vec3 α :=
  ⟨v.x * k, v.y * k, v.z * k⟩

/-- A `glm::vec3` computed in GLfloat arithmetic: `some v` when the components
are finite, `none` when they are NaN. -/
abbrev FVec3 (α : Type) := Option (Vec3 α)

/-- `glm::normalize(v)`, which is `v * inversesqrt(dot(v, v))`.  When
`dot(v, v)` is zero (in exact arithmetic: when `v` is the zero vector) the
inverse square root is infinite and every component is `0 * inf`, a NaN. -/
def normalize {α : Type} [Add α] [Mul α] [Zero α] [DecidableEq α]
    (inversesqrt : α → α) (v : Vec3 α) : FVec3 α :=
  if v.dot v = 0 then none else some (v.smul (inversesqrt (v.dot v)))

/-- Squared Euclidean norm. -/
def Vec3.normSq {α : Type} [Add α] [Mul α] (v : Vec3 α) : α :=
  v.dot v

/-- The vector lies in the unit hemisphere around +z: it is finite, its
Euclidean norm is at most 1 (stated on the square) and its z is not negative. -/
def inUnitHemisphere {α : Type} [Add α] [Mul α] [One α] [Zero α] [LE α] :
    FVec3 α → Prop
  | none => False
  | some v => v.normSq ≤ 1 ∧ 0 ≤ v.z

/-! ## The random source -/

/-- One call `randomFloats(generator)`: the next number of the sequence and
the generator advanced by one. -/
def randomFloats {α : Type} (generator : Nat → α) : α × (Nat → α) :=
  (generator 0, fun n => generator (n + 1))

/-! ## Global variables -/

/-- The global variables of main.cpp that the pipeline reads or writes. -/
structure Globals (α : Type) where
  gBufferQuadVAO : Nat
  gBufferQuadVBO : Nat
  gBufferView : Int
  ssaoKernelSize : Int
  ssaoNoiseSize : Int
  ssaoBlurSize : Int
  materialRoughness : α
  materialMetallicity : α
  materialF0 : α
  ssaoRadius : α
  ssaoVisibility : α
  ssaoPower : α
  ssaoKernel : List (FVec3 α)
  ssaoNoise : List (Vec3 α)
  lightColor1 : Vec3 α
  lightColor2 : Vec3 α
  lightColor3 : Vec3 α
  albedoColor : Vec3 α
  keys : List Bool

/-- The array `bool keys[1024]` when the program starts: a global without an
initialiser, so every entry is false. -/
def initialKeys : List Bool :=
  List.replicate 1024 false

/-- The values the globals have when `main` starts (lines 62-101; globals
without an initialiser are zero, the two vectors are empty, the 1024 entries
of `keys` are false). -/
def initialGlobals {α : Type} [Field α] : Globals α where
  gBufferQuadVAO := 0
  gBufferQuadVBO := 0
  gBufferView := 1
  ssaoKernelSize := 64
  ssaoNoiseSize := 4
  ssaoBlurSize := 4
  materialRoughness := 1 / 2
  materialMetallicity := 0
  materialF0 := 658 / 1000
  ssaoRadius := 1
  ssaoVisibility := 1
  ssaoPower := 1
  ssaoKernel := []
  ssaoNoise := []
  lightColor1 := ⟨1, 0, 0⟩
  lightColor2 := ⟨0, 1, 0⟩
  lightColor3 := ⟨0, 0, 1⟩
  albedoColor := ⟨1, 1, 1⟩
  keys := initialKeys

/-! ## `ssaoSetup`: sample kernel and noise tile -/

/-- The scale of the sample with index `i`:
`scale = GLfloat(i) / 64.0; scale = lerp(0.1f, 1.0f, scale * scale);`. -/
def kernelScale {α : Type} [Field α] (i : Nat) : α :=
  lerp (1 / 10) 1 (((i : α) / 64) * ((i : α) / 64))

/-- The order in which the three arguments of a `glm::vec3` constructor call
are evaluated.  C++ leaves it unspecified, so it is a parameter: `xyz` is left
to right, `zyx` right to left. -/
inductive ArgOrder
  | xyz | xzy | yxz | yzx | zxy | zyx
deriving DecidableEq

/-- The draws that the argument expressions for x, y and z receive when three
calls of `randomFloats(generator)` yield `a`, `b`, `c` in this order in time. -/
def ArgOrder.assign {α : Type} (o : ArgOrder) (a b c : α) : Vec3 α :=
  match o with
  | ArgOrder.xyz => ⟨a, b, c⟩
  | ArgOrder.xzy => ⟨a, c, b⟩
  | ArgOrder.yxz => ⟨b, a, c⟩
  | ArgOrder.yzx => ⟨c, a, b⟩
  | ArgOrder.zxy => ⟨b, c, a⟩
  | ArgOrder.zyx => ⟨c, b, a⟩

/-- The argument for x is evaluated before the argument for y. -/
def ArgOrder.xBeforeY : ArgOrder → Bool
  | ArgOrder.xyz => true
  | ArgOrder.xzy => true
  | ArgOrder.zxy => true
  | _ => false

/-- The evaluation order the compiled program uses at the two constructor
calls of `ssaoSetup`, line 637 and line 651, in each iteration of their
loops. -/
structure ArgEval where
  kernel : Nat → ArgOrder
  noise : Nat → ArgOrder

/-- The body of the sample-kernel loop (lines 637-645) for index `i`: the
vector pushed onto `ssaoKernel` and the generator after its four draws.  The
three draws of line 637 reach the components in the order `o`. -/
def kernelBody {α : Type} [Field α] [DecidableEq α] (inversesqrt : α → α)
    (o : ArgOrder) (i : Nat) (generator : Nat → α) : FVec3 α × (Nat → α) :=
  let r1 := randomFloats generator
  let r2 := randomFloats r1.2
  let rz := randomFloats r2.2
  let drawn := o.assign r1.1 r2.1 rz.1
  let sample : Vec3 α := ⟨drawn.x * 2 - 1, drawn.y * 2 - 1, drawn.z⟩
  let sample := normalize inversesqrt sample
  let rr := randomFloats rz.2
  let sample := sample.map (fun v => v.smul rr.1)
  let sample := sample.map (fun v => v.smul (kernelScale i))
  (sample, rr.2)

/-- The loop `for (GLuint i = 0; i < 64; ++i)` with `ssaoKernel.push_back`,
run on a kernel vector and a generator. -/
def kernelLoop {α : Type} [Field α] [DecidableEq α] (ev : ArgEval) (inversesqrt : α → α)
    (st : List (FVec3 α) × (Nat → α)) : List (FVec3 α) × (Nat → α) :=
  (List.range 64).foldl
    (fun st i => ((st.1 ++ [(kernelBody inversesqrt (ev.kernel i) i st.2).1]),
      (kernelBody inversesqrt (ev.kernel i) i st.2).2)) st

/-- The body of the noise loop (lines 651-652).  The two draws of line 651
reach x and y in the order `o`; the third argument is the literal `0.0f`. -/
def noiseBody {α : Type} [Field α] (o : ArgOrder) (generator : Nat → α) :
    Vec3 α × (Nat → α) :=
  let r1 := randomFloats generator
  let r2 := randomFloats r1.2
  let drawn : α × α := if o.xBeforeY then (r1.1, r2.1) else (r2.1, r1.1)
  (⟨drawn.1 * 2 - 1, drawn.2 * 2 - 1, 0⟩, r2.2)

/-- The loop `for (GLuint i = 0; i < 16; i++)` with `ssaoNoise.push_back`. -/
def noiseLoop {α : Type} [Field α] (ev : ArgEval)
    (st : List (Vec3 α) × (Nat → α)) : List (Vec3 α) × (Nat → α) :=
  (List.range 16).foldl
    (fun st i => ((st.1 ++ [(noiseBody (ev.noise i) st.2).1]),
      (noiseBody (ev.noise i) st.2).2)) st

/-- The function `ssaoSetup` (lines 631-653), as far as the two global vectors
go: `d` is the sequence the freshly constructed local `generator` yields and
`ev` the evaluation order of the constructor arguments.  The creation of the
framebuffers and textures is left out. -/
def ssaoSetup {α : Type} [Field α] [DecidableEq α] (ev : ArgEval) (inversesqrt : α → α)
    (d : Nat → α) (s : Globals α) : Globals α :=
  let generator := d
  let k := kernelLoop ev inversesqrt (s.ssaoKernel, generator)
  let n := noiseLoop ev (s.ssaoNoise, k.2)
  { s with ssaoKernel := k.1, ssaoNoise := n.1 }

/-! ## OpenGL commands -/

/-- The six timed passes, named as their query objects are. -/
inductive Pass
  | geometry | lighting | forward | ssao | cubemap | gui
deriving DecidableEq

/-- The framebuffer objects; `default` is framebuffer 0. -/
inductive Framebuffer
  | default | gBuffer | ssaoFBO | ssaoBlurFBO
deriving DecidableEq

/-- The binding point of `glBindFramebuffer`: `GL_FRAMEBUFFER`,
`GL_READ_FRAMEBUFFER` or `GL_DRAW_FRAMEBUFFER`. -/
inductive FbTarget
  | both | read | draw
deriving DecidableEq

/-- The shader programs created in `main`. -/
inductive Shader
  | lampShader | gBufferShader | brdfShader | cubemapShader | ssaoShader | ssaoBlurShader
deriving DecidableEq

/-- The textures bound by the passes. -/
inductive Texture
  | gPosition | gNormal | gColor | ssaoBuffer | ssaoBlurBuffer | noiseTexture
deriving DecidableEq

/-- The value of a uniform.  `kernelEntry` is what `&ssaoKernel[i][0]` points
to: `none` when `i` is outside the vector.  Matrices and the camera position
come from the camera and are named only. -/
inductive UVal (α : Type)
  | int (v : Int)
  | float (v : α)
  | float3 (x y z : α)
  | kernelEntry (v : Option (FVec3 α))
  | matrix (name : String)
deriving DecidableEq

/-- One call issued by a frame: an OpenGL call, or a call of a collaborator
that draws (`Model::Draw`, `BasicShape::drawShape`, `CubeMap::renderToShader`,
`LightObject::renderToShader`, `ImGui::Render`). -/
inductive Cmd (α : Type)
  | queryCounter (p : Pass) (stop : Bool)
  | bindFramebuffer (t : FbTarget) (fb : Framebuffer)
  | clear (color depth : Bool)
  | useShader (sh : Shader)
  | activeTexture (unit : Nat)
  | bindTexture (t : Texture)
  | uniform (sh : Shader) (name : String) (v : UVal α)
  | modelDraw (sh : Shader)
  | setLightColor (light : Nat) (c : Vec3 α)
  | lightRender (light : Nat) (sh : Shader)
  | blitDepth
  | lampDraw (lamp : Nat)
  | cubemapRender
  | imguiRender
  | genVertexArrays (h : Nat)
  | genBuffers (h : Nat)
  | bindVertexArray (h : Nat)
  | bindBuffer (h : Nat)
  | bufferData
  | enableVertexAttribArray (i : Nat)
  | vertexAttribPointer (i : Nat)
  | drawArrays
deriving DecidableEq

/-! ## The full-screen quad -/

/-- The function `gBufferQuad` (lines 664-689).  `fresh` holds the names
`glGenVertexArrays` and `glGenBuffers` return when they are called. -/
def gBufferQuad {α : Type} (fresh : Nat × Nat) (s : Globals α) :
    Globals α × List (Cmd α) :=
  let created : Globals α × List (Cmd α) :=
    if s.gBufferQuadVAO = 0 then
      ({ s with gBufferQuadVAO := fresh.1, gBufferQuadVBO := fresh.2 },
        [Cmd.genVertexArrays fresh.1, Cmd.genBuffers fresh.2,
         Cmd.bindVertexArray fresh.1, Cmd.bindBuffer fresh.2, Cmd.bufferData,
         Cmd.enableVertexAttribArray 0, Cmd.vertexAttribPointer 0,
         Cmd.enableVertexAttribArray 1, Cmd.vertexAttribPointer 1])
    else (s, [])
  (created.1, created.2 ++
    [Cmd.bindVertexArray created.1.gBufferQuadVAO, Cmd.drawArrays, Cmd.bindVertexArray 0])

/-! ## One frame of the main loop -/

/-- The number of iterations of `for (GLuint i = 0; i < ssaoKernelSize; ++i)`:
the `GLint` is converted to `GLuint` for the comparison. -/
def uploadCount (ssaoKernelSize : Int) : Nat :=
  (ssaoKernelSize % 2 ^ 32).toNat

/-- The upload loop of the kernel (lines 318-319). -/
def sampleUploads {α : Type} (s : Globals α) : List (Cmd α) :=
  (List.range (uploadCount s.ssaoKernelSize)).map fun i =>
    Cmd.uniform Shader.ssaoShader ("samples[" ++ toString i ++ "]")
      (UVal.kernelEntry s.ssaoKernel[i]?)

/-- Geometry pass, lines 268-299. -/
def geometryPass {α : Type} (s : Globals α) : List (Cmd α) :=
  [Cmd.queryCounter Pass.geometry false,
   Cmd.bindFramebuffer FbTarget.both Framebuffer.gBuffer,
   Cmd.clear true true,
   Cmd.useShader Shader.gBufferShader,
   Cmd.uniform Shader.gBufferShader "projection" (UVal.matrix "projection"),
   Cmd.uniform Shader.gBufferShader "view" (UVal.matrix "view"),
   Cmd.uniform Shader.gBufferShader "model" (UVal.matrix "model"),
   Cmd.uniform Shader.gBufferShader "albedoColor"
     (UVal.float3 s.albedoColor.x s.albedoColor.y s.albedoColor.z),
   Cmd.modelDraw Shader.gBufferShader,
   Cmd.bindFramebuffer FbTarget.both Framebuffer.default,
   Cmd.queryCounter Pass.geometry true]

/-- SSAO occlusion, lines 305-326, up to the call of `gBufferQuad`. -/
def ssaoOcclusionSetup {α : Type} (s : Globals α) : List (Cmd α) :=
  [Cmd.queryCounter Pass.ssao false,
   Cmd.bindFramebuffer FbTarget.both Framebuffer.ssaoFBO,
   Cmd.clear true false,
   Cmd.useShader Shader.ssaoShader,
   Cmd.activeTexture 0, Cmd.bindTexture Texture.gPosition,
   Cmd.activeTexture 1, Cmd.bindTexture Texture.gNormal,
   Cmd.activeTexture 2, Cmd.bindTexture Texture.noiseTexture]
  ++ sampleUploads s ++
  [Cmd.uniform Shader.ssaoShader "projection" (UVal.matrix "projection"),
   Cmd.uniform Shader.ssaoShader "ssaoKernelSize" (UVal.int s.ssaoKernelSize),
   Cmd.uniform Shader.ssaoShader "ssaoNoiseSize" (UVal.int s.ssaoNoiseSize),
   Cmd.uniform Shader.ssaoShader "ssaoRadius" (UVal.float s.ssaoRadius),
   Cmd.uniform Shader.ssaoShader "ssaoPower" (UVal.float s.ssaoPower),
   Cmd.uniform Shader.ssaoShader "viewportWidth" (UVal.int 1280),
   Cmd.uniform Shader.ssaoShader "viewportHeight" (UVal.int 720)]

/-- SSAO blur, lines 331-337, up to the call of `gBufferQuad`. -/
def ssaoBlurSetup {α : Type} (s : Globals α) : List (Cmd α) :=
  [Cmd.bindFramebuffer FbTarget.both Framebuffer.ssaoBlurFBO,
   Cmd.clear true false,
   Cmd.useShader Shader.ssaoBlurShader,
   Cmd.uniform Shader.ssaoBlurShader "ssaoBlurSize" (UVal.int s.ssaoBlurSize),
   Cmd.activeTexture 0, Cmd.bindTexture Texture.ssaoBuffer]

/-- Lighting pass, lines 346-375: from its start query to its stop query. -/
def lightingPass {α : Type} (s : Globals α) : List (Cmd α) :=
  [Cmd.queryCounter Pass.lighting false,
   Cmd.clear true true,
   Cmd.useShader Shader.brdfShader,
   Cmd.activeTexture 0, Cmd.bindTexture Texture.gPosition,
   Cmd.activeTexture 1, Cmd.bindTexture Texture.gNormal,
   Cmd.activeTexture 2, Cmd.bindTexture Texture.gColor,
   Cmd.activeTexture 3, Cmd.bindTexture Texture.ssaoBlurBuffer,
   Cmd.setLightColor 1 s.lightColor1,
   Cmd.setLightColor 2 s.lightColor2,
   Cmd.setLightColor 3 s.lightColor3,
   Cmd.lightRender 1 Shader.brdfShader,
   Cmd.lightRender 2 Shader.brdfShader,
   Cmd.lightRender 3 Shader.brdfShader,
   Cmd.uniform Shader.brdfShader "view" (UVal.matrix "view"),
   Cmd.uniform Shader.brdfShader "model" (UVal.matrix "model"),
   Cmd.uniform Shader.brdfShader "viewPos" (UVal.matrix "cameraPosition"),
   Cmd.uniform Shader.brdfShader "materialRoughness" (UVal.float s.materialRoughness),
   Cmd.uniform Shader.brdfShader "materialMetallicity" (UVal.float s.materialMetallicity),
   Cmd.uniform Shader.brdfShader "materialF0"
     (UVal.float3 s.materialF0 s.materialF0 s.materialF0),
   Cmd.uniform Shader.brdfShader "gBufferView" (UVal.int s.gBufferView),
   Cmd.uniform Shader.brdfShader "ssaoVisibility" (UVal.float s.ssaoVisibility),
   Cmd.queryCounter Pass.lighting true]

/-- Forward pass, cubemap and GUI, lines 387-415. -/
def forwardPasses {α : Type} : List (Cmd α) :=
  [Cmd.queryCounter Pass.forward false,
   Cmd.bindFramebuffer FbTarget.read Framebuffer.gBuffer,
   Cmd.bindFramebuffer FbTarget.draw Framebuffer.default,
   Cmd.blitDepth,
   Cmd.bindFramebuffer FbTarget.both Framebuffer.default,
   Cmd.useShader Shader.lampShader,
   Cmd.uniform Shader.lampShader "projection" (UVal.matrix "projection"),
   Cmd.uniform Shader.lampShader "view" (UVal.matrix "view"),
   Cmd.lampDraw 1, Cmd.lampDraw 2, Cmd.lampDraw 3,
   Cmd.queryCounter Pass.forward true,
   Cmd.queryCounter Pass.cubemap false,
   Cmd.cubemapRender,
   Cmd.queryCounter Pass.cubemap true,
   Cmd.queryCounter Pass.gui false,
   Cmd.imguiRender,
   Cmd.queryCounter Pass.gui true]

/-- The rendering part of one iteration of the main loop, lines 265-415: the
globals after it and the commands it issued, in order. -/
def renderFrame {α : Type} (fresh : Nat × Nat) (s : Globals α) :
    Globals α × List (Cmd α) :=
  let q1 := gBufferQuad fresh s
  let q2 := gBufferQuad fresh q1.1
  let q3 := gBufferQuad fresh q2.1
  (q3.1,
    geometryPass s
    ++ ssaoOcclusionSetup s ++ q1.2
    ++ [Cmd.bindFramebuffer FbTarget.both Framebuffer.default]
    ++ ssaoBlurSetup q1.1 ++ q2.2
    ++ [Cmd.bindFramebuffer FbTarget.both Framebuffer.default,
        Cmd.queryCounter Pass.ssao true]
    ++ lightingPass q2.1
    ++ q3.2
    ++ forwardPasses)

/-! ## What a command sequence draws -/

/-- The bindings a draw call depends on: the draw and read framebuffer and the
program in use. -/
structure GLState where
  drawFb : Framebuffer
  readFb : Framebuffer
  program : Option Shader
deriving DecidableEq

/-- The events of a frame that the pass order is about. -/
inductive PassEvent
  | timestamp (p : Pass) (stop : Bool)
  | sceneDraw (target : Framebuffer)
  | quadDraw (target : Framebuffer) (program : Option Shader)
  | depthBlit (source target : Framebuffer)
  | markerDraw (lamp : Nat)
  | cubemapDraw
  | guiDraw
deriving DecidableEq

/-- The effect of one command on the bindings.  The calls of the collaborators
(`Model::Draw`, `LightObject::renderToShader`, ...) are taken to leave the
bindings as they found them. -/
def glStep {α : Type} (st : GLState) : Cmd α → GLState
  | Cmd.bindFramebuffer FbTarget.both fb => { st with drawFb := fb, readFb := fb }
  | Cmd.bindFramebuffer FbTarget.read fb => { st with readFb := fb }
  | Cmd.bindFramebuffer FbTarget.draw fb => { st with drawFb := fb }
  | Cmd.useShader sh => { st with program := some sh }
  | _ => st

/-- The event a command stands for under the current bindings, if any. -/
def glEvent {α : Type} (st : GLState) : Cmd α → Option PassEvent
  | Cmd.queryCounter p stop => some (PassEvent.timestamp p stop)
  | Cmd.modelDraw _ => some (PassEvent.sceneDraw st.drawFb)
  | Cmd.drawArrays => some (PassEvent.quadDraw st.drawFb st.program)
  | Cmd.blitDepth => some (PassEvent.depthBlit st.readFb st.drawFb)
  | Cmd.lampDraw i => some (PassEvent.markerDraw i)
  | Cmd.cubemapRender => some PassEvent.cubemapDraw
  | Cmd.imguiRender => some PassEvent.guiDraw
  | _ => none

/-- Replays a command sequence: the bindings at its end and its events. -/
def runGL {α : Type} : GLState → List (Cmd α) → GLState × List PassEvent
  | st, [] => (st, [])
  | st, c :: cs =>
    let r := runGL (glStep st c) cs
    (r.1, (glEvent st c).toList ++ r.2)

/-- The bindings when a frame starts: the default framebuffer is bound. -/
def frameStart : GLState :=
  { drawFb := Framebuffer.default, readFb := Framebuffer.default, program := none }

/-- The events of one frame, timestamps included. -/
def frameEvents {α : Type} (fresh : Nat × Nat) (s : Globals α) : List PassEvent :=
  (runGL frameStart (renderFrame fresh s).2).2

/-- An event that is not a timestamp query. -/
def PassEvent.isDraw : PassEvent → Bool
  | PassEvent.timestamp _ _ => false
  | _ => true

/-- The events of one frame without the timestamp queries. -/
def framePasses {α : Type} (fresh : Nat × Nat) (s : Globals α) : List PassEvent :=
  (frameEvents fresh s).filter PassEvent.isDraw

/-- Every occurrence of `b` in `l` has an occurrence of `a` before it. -/
def ComesAfter {β : Type} (l : List β) (a b : β) : Prop :=
  ∀ j : Nat, j < l.length → l[j]? = some b → ∃ i : Nat, i < j ∧ l[i]? = some a

instance ComesAfter.decidable {β : Type} [DecidableEq β] (l : List β) (a b : β) :
    Decidable (ComesAfter l a b) := by
  unfold ComesAfter
  infer_instance

/-- Every occurrence of the event `e` in `l` lies between a start timestamp of
the pass `p` before it and a stop timestamp of `p` after it. -/
def Bracketed (l : List PassEvent) (p : Pass) (e : PassEvent) : Prop :=
  ∀ j : Nat, j < l.length → l[j]? = some e →
    (∃ i : Nat, i < j ∧ l[i]? = some (PassEvent.timestamp p false))
    ∧ (∃ k : Nat, k < l.length ∧ j < k ∧ l[k]? = some (PassEvent.timestamp p true))

instance Bracketed.decidable (l : List PassEvent) (p : Pass) (e : PassEvent) :
    Decidable (Bracketed l p e) := by
  unfold Bracketed
  infer_instance

/-! ## The timing-query polling loop -/

/-- The six flags `stop...TimerAvailable`. -/
structure Avail where
  geometry : Bool
  lighting : Bool
  forward : Bool
  ssao : Bool
  cubemap : Bool
  gui : Bool
deriving DecidableEq

/-- The flags as they are initialised before the loop (lines 421-426). -/
def Avail.zero : Avail :=
  ⟨false, false, false, false, false, false⟩

/-- All six flags are set. -/
def Avail.all (a : Avail) : Bool :=
  a.geometry && a.lighting && a.forward && a.ssao && a.cubemap && a.gui

/-- The condition of the `while` at line 428. -/
def pollCond (a : Avail) : Bool :=
  !a.geometry && !a.lighting && !a.forward && !a.ssao && !a.cubemap && !a.gui

/-- The polling loop of lines 428-436.  `gpu n` is what the six calls of
`glGetQueryObjectiv` store in iteration `n`.  The result is the flags at the
exit of the loop and the number of iterations made, `none` when the loop is
still running after `fuel` tests of its condition. -/
def pollLoop (gpu : Nat → Avail) : Nat → Nat → Avail → Option (Avail × Nat)
  | 0, _, _ => none
  | fuel + 1, n, a =>
    if pollCond a then pollLoop gpu fuel (n + 1) (gpu n) else some (a, n)

/-! ## The overlay -/

/-- What the user asks of the overlay in one frame: for each widget the value
requested, `none` when the widget is not touched (or not shown). -/
structure OverlayInput (α : Type) where
  albedo : Option (Vec3 α)
  roughness : Option α
  metallicity : Option α
  f0 : Option α
  lightColor1 : Option (Vec3 α)
  lightColor2 : Option (Vec3 α)
  lightColor3 : Option (Vec3 α)
  visibility : Option α
  power : Option α
  kernelSize : Option Int
  noiseSize : Option Int
  radius : Option α
  blurSize : Option Int

/-- Modelled from the spec: `ImGui::SliderFloat` (imgui is not under src/).
A value set through the overlay "is clamped at the boundary, not propagated
out-of-range"; without a request the variable keeps its value. -/
def SliderFloat {α : Type} [LinearOrder α] (v v_min v_max : α) (request : Option α) : α :=
  match request with
  | none => v
  | some r => max v_min (min r v_max)

/-- Modelled from the spec: `ImGui::SliderInt` (imgui is not under src/), the
integer slider, clamped in the same way. -/
def SliderInt (v v_min v_max : Int) (request : Option Int) : Int :=
  match request with
  | none => v
  | some r => max v_min (min r v_max)

/-- Modelled from the spec: `ImGui::ColorEdit3` (imgui is not under src/); the
colour is replaced by the one requested. -/
def ColorEdit3 {α : Type} (v : Vec3 α) (request : Option (Vec3 α)) : Vec3 α :=
  request.getD v

/-- The widgets of `imGuiSetup` that write globals (lines 495-524), with the
bounds the source passes to them. -/
def imGuiSetup {α : Type} [LinearOrderedField α] (ui : OverlayInput α) (s : Globals α) :
    Globals α :=
  { s with
    albedoColor := ColorEdit3 s.albedoColor ui.albedo
    materialRoughness := SliderFloat s.materialRoughness 0 1 ui.roughness
    materialMetallicity := SliderFloat s.materialMetallicity 0 1 ui.metallicity
    materialF0 := SliderFloat s.materialF0 0 1 ui.f0
    lightColor1 := ColorEdit3 s.lightColor1 ui.lightColor1
    lightColor2 := ColorEdit3 s.lightColor2 ui.lightColor2
    lightColor3 := ColorEdit3 s.lightColor3 ui.lightColor3
    ssaoVisibility := SliderFloat s.ssaoVisibility 0 1 ui.visibility
    ssaoPower := SliderFloat s.ssaoPower 0 4 ui.power
    ssaoKernelSize := SliderInt s.ssaoKernelSize 0 64 ui.kernelSize
    ssaoNoiseSize := SliderInt s.ssaoNoiseSize 0 16 ui.noiseSize
    ssaoRadius := SliderFloat s.ssaoRadius 0 3 ui.radius
    ssaoBlurSize := SliderInt s.ssaoBlurSize 0 16 ui.blurSize }

/-- One iteration of the main loop: `imGuiSetup()` and then the passes. -/
def frame {α : Type} [LinearOrderedField α] (fresh : Nat × Nat) (ui : OverlayInput α)
    (s : Globals α) : Globals α × List (Cmd α) :=
  renderFrame fresh (imGuiSetup ui s)

/-- The globals after the frames whose overlay inputs are listed. -/
def runFrames {α : Type} [LinearOrderedField α] (fresh : Nat × Nat) :
    List (OverlayInput α) → Globals α → Globals α
  | [], s => s
  | ui :: rest, s => runFrames fresh rest (frame fresh ui s).1

/-- Roughness, metallicity, F0 and occlusion visibility all lie in [0,1]. -/
def MaterialInRange {α : Type} [LinearOrderedField α] (s : Globals α) : Prop :=
  (0 ≤ s.materialRoughness ∧ s.materialRoughness ≤ 1)
  ∧ (0 ≤ s.materialMetallicity ∧ s.materialMetallicity ≤ 1)
  ∧ (0 ≤ s.materialF0 ∧ s.materialF0 ≤ 1)
  ∧ (0 ≤ s.ssaoVisibility ∧ s.ssaoVisibility ≤ 1)

/-! ## Program start -/

/-- What differs between two runs of the program: the time at which the
process starts and the entropy of the machine. -/
structure RunEnv where
  wallClock : Nat
  entropy : Nat

/-- The path of `main` from the start of the process to the return of
`ssaoSetup()` (line 222): the globals are initialised and the kernel and the
noise are built.  Nothing on this path reads the clock or a seed. -/
def mainSetup {α : Type} [Field α] [DecidableEq α] (ev : ArgEval) (inversesqrt : α → α)
    (d : Nat → α) (_env : RunEnv) : Globals α :=
  ssaoSetup ev inversesqrt d initialGlobals

/-- The random number engine of the standard library behind
`std::default_random_engine` and `randomFloats`.  The library is not part of
the sources, so it is a parameter: `construct env` is the state of a
default-constructed engine in a run with the environment `env` (a library
could read the clock there), `next` is one call `randomFloats(generator)`. -/
structure Engine (α : Type) where
  State : Type
  construct : RunEnv → State
  next : State → α × State

/-- The sequence of numbers an engine yields from a state. -/
def Engine.draws {α : Type} (E : Engine α) : E.State → Nat → α
  | st, 0 => (E.next st).1
  | st, n + 1 => E.draws (E.next st).2 n

/-- Every default-constructed engine starts in the same state, whatever the
run.  The C++ standard requires it of every random number engine. -/
def Engine.SameStart {α : Type} (E : Engine α) : Prop :=
  ∀ e1 e2 : RunEnv, E.construct e1 = E.construct e2

/-- A run of the program, with the library `E`, from the start of the process
to the return of `ssaoSetup()`: line 633 default-constructs the generator in
the environment of the run, and passes it neither a seed nor the time. -/
def runSetup {α : Type} [Field α] [DecidableEq α] (ev : ArgEval) (inversesqrt : α → α)
    (E : Engine α) (env : RunEnv) : Globals α :=
  mainSetup ev inversesqrt (E.draws (E.construct env)) env

/-! ## Closed forms of the two loops of `ssaoSetup` -/

/-- The kernel vector of index `i` in terms of the sequence `d` of the
generator: iteration `i` uses the draws `4 * i` to `4 * i + 3`. -/
def kernelEntry {α : Type} [Field α] [DecidableEq α] (ev : ArgEval) (inversesqrt : α → α)
    (d : Nat → α) (i : Nat) : FVec3 α :=
  (kernelBody inversesqrt (ev.kernel i) i (fun k => d (k + 4 * i))).1

/-- The sample of iteration `i` before it is normalised (line 637), in terms
of the sequence `d` of the generator. -/
def kernelSample {α : Type} [Field α] (ev : ArgEval) (d : Nat → α) (i : Nat) : Vec3 α :=
  ⟨((ev.kernel i).assign (d (4 * i)) (d (4 * i + 1)) (d (4 * i + 2))).x * 2 - 1,
   ((ev.kernel i).assign (d (4 * i)) (d (4 * i + 1)) (d (4 * i + 2))).y * 2 - 1,
   ((ev.kernel i).assign (d (4 * i)) (d (4 * i + 1)) (d (4 * i + 2))).z⟩

/-- The noise vector of index `i` when the noise loop starts on the sequence
`g`: iteration `i` uses the draws `2 * i` and `2 * i + 1`. -/
def noiseEntry {α : Type} [Field α] (ev : ArgEval) (g : Nat → α) (i : Nat) : Vec3 α :=
  (noiseBody (ev.noise i) (fun k => g (k + 2 * i))).1

/-- The globals that the passes of a frame read: the program starts, the
frames with the overlay inputs `inputs` run, and `imGuiSetup` of the current
frame handles the input `ui`. -/
def frameGlobals {α : Type} [LinearOrderedField α] [DecidableEq α] (ev : ArgEval)
    (inversesqrt : α → α) (d : Nat → α) (env : RunEnv) (fresh : Nat × Nat)
    (inputs : List (OverlayInput α)) (ui : OverlayInput α) : Globals α :=
  imGuiSetup ui (runFrames fresh inputs (mainSetup ev inversesqrt d env))

/-! ## Keyboard input -/

/-- The constants of `GLFW/glfw3.h` that `key_callback` uses.  The header is
not part of the sources, so the constants are a parameter. -/
structure Glfw where
  GLFW_KEY_ESCAPE : Nat
  GLFW_KEY_F11 : Nat
  GLFW_KEY_F12 : Nat
  GLFW_KEY_1 : Nat
  GLFW_KEY_2 : Nat
  GLFW_KEY_3 : Nat
  GLFW_KEY_4 : Nat
  GLFW_KEY_5 : Nat
  GLFW_PRESS : Int
  GLFW_RELEASE : Int

/-- The key code of the digit `n`, for `n` from 1 to 5. -/
def Glfw.digitKey (k : Glfw) : Nat → Nat
  | 1 => k.GLFW_KEY_1
  | 2 => k.GLFW_KEY_2
  | 3 => k.GLFW_KEY_3
  | 4 => k.GLFW_KEY_4
  | _ => k.GLFW_KEY_5

/-- The five digit key codes are different from each other and are indices
of the array `keys`. -/
def Glfw.DigitsOk (k : Glfw) : Prop :=
  [k.GLFW_KEY_1, k.GLFW_KEY_2, k.GLFW_KEY_3, k.GLFW_KEY_4, k.GLFW_KEY_5].Nodup
  ∧ ∀ c ∈ [k.GLFW_KEY_1, k.GLFW_KEY_2, k.GLFW_KEY_3, k.GLFW_KEY_4, k.GLFW_KEY_5], c < 1024

instance Glfw.DigitsOk.decidable (k : Glfw) : Decidable k.DigitsOk := by
  unfold Glfw.DigitsOk
  infer_instance

/-- What `key_callback` does besides writing globals. -/
inductive KeyEffect
  | setWindowShouldClose
  | polygonModeFill
  | polygonModeLine
deriving DecidableEq

/-- The read `keys[code]` of a key constant. -/
def keyHeld (keys : List Bool) (code : Nat) : Bool :=
  keys.getD code false

/-- The five tests of lines 715-728: the view chosen from the array `keys`,
`view` when no digit key is recorded as held. -/
def selectView (k : Glfw) (keys : List Bool) (view : Int) : Int :=
  let view := if keyHeld keys k.GLFW_KEY_1 then 1 else view
  let view := if keyHeld keys k.GLFW_KEY_2 then 2 else view
  let view := if keyHeld keys k.GLFW_KEY_3 then 3 else view
  let view := if keyHeld keys k.GLFW_KEY_4 then 4 else view
  let view := if keyHeld keys k.GLFW_KEY_5 then 5 else view
  view

/-- The update of the array at lines 730-736. -/
def updateKeys (k : Glfw) (keys : List Bool) (key action : Int) : List Bool :=
  if 0 ≤ key ∧ key < 1024 then
    if action = k.GLFW_PRESS then keys.set key.toNat true
    else if action = k.GLFW_RELEASE then keys.set key.toNat false
    else keys
  else keys

/-- The function `key_callback` (lines 704-737); the window is left out. -/
def key_callback {α : Type} (k : Glfw) (s : Globals α) (key scancode action mode : Int) :
    Globals α × List KeyEffect :=
  let _ := scancode
  let _ := mode
  let close := if key = (k.GLFW_KEY_ESCAPE : Int) ∧ action = k.GLFW_PRESS
    then [KeyEffect.setWindowShouldClose] else []
  let fill := if key = (k.GLFW_KEY_F11 : Int) ∧ action = k.GLFW_PRESS
    then [KeyEffect.polygonModeFill] else []
  let line := if key = (k.GLFW_KEY_F12 : Int) ∧ action = k.GLFW_PRESS
    then [KeyEffect.polygonModeLine] else []
  ({ s with
      gBufferView := selectView k s.keys s.gBufferView
      keys := updateKeys k s.keys key action },
    close ++ fill ++ line)

/-- A key event as GLFW passes it to the callback. -/
structure KeyEvent where
  key : Int
  scancode : Int
  action : Int
  mode : Int

/-- The globals after `key_callback` has handled the events in order. -/
def handleKeys {α : Type} (k : Glfw) : List KeyEvent → Globals α → Globals α
  | [], s => s
  | e :: rest, s => handleKeys k rest (key_callback k s e.key e.scancode e.action e.mode).1

/-! ## Later calls of `gBufferQuad` -/

/-- The globals after calls of `gBufferQuad`, one for each entry of the list;
the entry holds the names the driver would hand out during that call. -/
def quadCalls {α : Type} : List (Nat × Nat) → Globals α → Globals α
  | [], s => s
  | fresh :: rest, s => quadCalls rest (gBufferQuad fresh s).1

/-! ## The kernel uniforms of a frame -/

/-- The command uploads an entry of the kernel. -/
def isKernelUpload {α : Type} : Cmd α → Bool
  | Cmd.uniform _ _ (UVal.kernelEntry _) => true
  | _ => false

/-- The uploads of kernel entries among the commands, in order. -/
def kernelUploads {α : Type} (cmds : List (Cmd α)) : List (Cmd α) :=
  cmds.filter isKernelUpload

/-! ## The blur of the occlusion buffer -/

/-- An image buffer of `w` by `h` texels with one channel. -/
abbrev Buffer (α : Type) (w h : Nat) := Fin w → Fin h → α

/-- Clamped addressing along one axis: the coordinate `i + off`, moved to the
nearest texel when it falls outside the buffer. -/
def clampCoord {n : Nat} (i : Fin n) (off : Int) : Fin n :=
  ⟨min (((i : Nat) : Int) + off).toNat (n - 1), by
    have h := i.isLt
    have := Nat.min_le_right (((i : Nat) : Int) + off).toNat (n - 1)
    omega⟩

/-- The offsets `-blurSize, ..., blurSize` of a box of side `2*blurSize+1`. -/
def boxOffsets (blurSize : Nat) : List Int :=
  (List.range (2 * blurSize + 1)).map fun (j : Nat) => (j : Int) - (blurSize : Int)

/-- Modelled from the spec: the blur shader `ssaoBlur.frag`, which is not
under src/.  It "applies a square box blur of side `2*blurSize+1`" to the
occlusion buffer, and "edge texels sample out-of-bounds via clamped
addressing": every texel becomes the mean of the texels of the box around
it. -/
def blur {α : Type} [Field α] {w h : Nat} (blurSize : Nat) (occlusion : Buffer α w h) :
    Buffer α w h :=
  fun x y =>
    ((boxOffsets blurSize).map fun dx =>
      ((boxOffsets blurSize).map fun dy =>
        occlusion (clampCoord x dx) (clampCoord y dy)).sum).sum
    / (((2 * blurSize + 1) * (2 * blurSize + 1) : Nat) : α)

/-- The blur pass of a frame (lines 331-339): the quad is drawn with the blur
shader, which reads `ssaoBuffer` and the uniform `ssaoBlurSize` (0 to 16). -/
def blurPass {α : Type} [Field α] {w h : Nat} (s : Globals α) (ssaoBuffer : Buffer α w h) :
    Buffer α w h :=
  blur s.ssaoBlurSize.toNat ssaoBuffer

/-! ## Concrete inputs -/

/-- Every constructor call evaluates its arguments left to right. -/
def leftToRight : ArgEval :=
  ⟨fun _ => ArgOrder.xyz, fun _ => ArgOrder.xyz⟩

/-- Every constructor call evaluates its arguments right to left. -/
def rightToLeft : ArgEval :=
  ⟨fun _ => ArgOrder.zyx, fun _ => ArgOrder.zyx⟩

/-- The values the constants have in `glfw3.h`. -/
def glfw3 : Glfw where
  GLFW_KEY_ESCAPE := 256
  GLFW_KEY_F11 := 300
  GLFW_KEY_F12 := 301
  GLFW_KEY_1 := 49
  GLFW_KEY_2 := 50
  GLFW_KEY_3 := 51
  GLFW_KEY_4 := 52
  GLFW_KEY_5 := 53
  GLFW_PRESS := 1
  GLFW_RELEASE := 0

/-- A 2 by 2 occlusion buffer with four different values. -/
def smallBuffer : Buffer ℚ 2 2 :=
  fun x y => (x : Nat) + 2 * (y : Nat)


/-- A sequence of draws whose first sample is the zero vector before it is
normalised, x = y = 0.5 and z = 0, with left to right evaluation. -/
def zeroSampleDraws : Nat → ℚ :=
  fun n => if n = 2 then 0 else 1 / 2

/-- The position in time, 0 to 2, of the draw that the argument for z
receives. -/
def ArgOrder.zPosition : ArgOrder → Nat
  | ArgOrder.xyz => 2
  | ArgOrder.xzy => 1
  | ArgOrder.yxz => 2
  | ArgOrder.yzx => 1
  | ArgOrder.zxy => 0
  | ArgOrder.zyx => 0

/-- A sequence of draws whose first sample is the zero vector when the
arguments are evaluated in the order `o`: the draw that z receives is 0, all
others are 0.5. -/
def zeroSampleDrawsAt (o : ArgOrder) : Nat → ℚ :=
  fun n => if n = o.zPosition then 0 else 1 / 2

/-- The engine of libstdc++, where `std::default_random_engine` is
`minstd_rand0`: the state `x` becomes `16807 * x mod (2^31 - 1)`, a
default-constructed engine starts from `default_seed = 1`, and the
distribution maps the new state `x` to `(x - 1) / (2^31 - 2)`. -/
def minstdRand0 : Engine ℚ where
  State := Nat
  construct := fun _ => 1
  next := fun x => ((((16807 * x % 2147483647 : Nat) : ℚ) - 1) / 2147483646,
    16807 * x % 2147483647)

/-- A library that breaks the rule of the standard: its default-constructed
engine starts from the clock.  The state `x` yields `1 / (x + 1)` and becomes
`x + 1`. -/
def clockEngine : Engine ℚ where
  State := Nat
  construct := fun env => env.wallClock
  next := fun x => (1 / ((x : ℚ) + 1), x + 1)

/-- A sequence of draws in which, with left to right evaluation, every sample
is (0, 0, 1) before it is normalised, and every length factor is 1/2. -/
def axisDraws {α : Type} [Field α] : Nat → α :=
  fun n => if n % 4 = 2 then 1 else 1 / 2

/-- Globals in which the kernel size is 32 when `ssaoSetup` runs. -/
def globalsKernel32 : Globals ℚ :=
  { (initialGlobals : Globals ℚ) with ssaoKernelSize := 32 }

/-- A driver that reports the geometry query as available in every poll and
none of the other five, ever. -/
def geometryOnly : Nat → Avail :=
  fun _ => ⟨true, false, false, false, false, false⟩

/-- Two process environments that differ in clock and entropy. -/
def envA : RunEnv := ⟨0, 0⟩

/-- The second environment. -/
def envB : RunEnv := ⟨1700000000, 42⟩

/-! ## Lemmas on the loops -/

theorem kernelLoop_fold {α : Type} [Field α] [DecidableEq α] (ev : ArgEval) (inversesqrt : α → α)
    (n : Nat) (acc : List (FVec3 α)) (g : Nat → α) :
    (List.range n).foldl
      (fun st i => ((st.1 ++ [(kernelBody inversesqrt (ev.kernel i) i st.2).1]),
        (kernelBody inversesqrt (ev.kernel i) i st.2).2)) (acc, g)
      = (acc ++ (List.range n).map (kernelEntry ev inversesqrt g), fun k => g (k + 4 * n)) := by
  induction n with
  | zero => simp
  | succ n ih =>
    rw [List.range_succ, List.foldl_append, ih]
    simp only [List.foldl_cons, List.foldl_nil, List.map_append, List.map_cons, List.map_nil,
      List.append_assoc]
    refine Prod.ext ?_ ?_
    · rfl
    · funext k
      show g (k + 1 + 1 + 1 + 1 + 4 * n) = g (k + 4 * (n + 1))
      congr 1
      omega

theorem noiseLoop_fold {α : Type} [Field α] (ev : ArgEval) (n : Nat) (acc : List (Vec3 α)) (g : Nat → α) :
    (List.range n).foldl
      (fun st i => ((st.1 ++ [(noiseBody (ev.noise i) st.2).1]),
        (noiseBody (ev.noise i) st.2).2)) (acc, g)
      = (acc ++ (List.range n).map (noiseEntry ev g), fun k => g (k + 2 * n)) := by
  induction n with
  | zero => simp
  | succ n ih =>
    rw [List.range_succ, List.foldl_append, ih]
    simp only [List.foldl_cons, List.foldl_nil, List.map_append, List.map_cons, List.map_nil,
      List.append_assoc]
    refine Prod.ext ?_ ?_
    · rfl
    · funext k
      show g (k + 1 + 1 + 2 * n) = g (k + 2 * (n + 1))
      congr 1
      omega

theorem ssaoSetup_ssaoKernel {α : Type} [Field α] [DecidableEq α] (ev : ArgEval) (inversesqrt : α → α)
    (d : Nat → α) (s : Globals α) :
    (ssaoSetup ev inversesqrt d s).ssaoKernel
      = s.ssaoKernel ++ (List.range 64).map (kernelEntry ev inversesqrt d) := by
  simp [ssaoSetup, kernelLoop, kernelLoop_fold]

theorem ssaoSetup_ssaoNoise {α : Type} [Field α] [DecidableEq α] (ev : ArgEval) (inversesqrt : α → α)
    (d : Nat → α) (s : Globals α) :
    (ssaoSetup ev inversesqrt d s).ssaoNoise
      = s.ssaoNoise ++ (List.range 16).map (noiseEntry ev (fun k => d (k + 256))) := by
  simp [ssaoSetup, kernelLoop, noiseLoop, kernelLoop_fold, noiseLoop_fold]

theorem mainSetup_kernel_get {α : Type} [Field α] [DecidableEq α]
    (ev : ArgEval) (inversesqrt : α → α) (d : Nat → α) (env : RunEnv) (i : Nat) (hi : i < 64) :
    (mainSetup ev inversesqrt d env).ssaoKernel[i]? = some (kernelEntry ev inversesqrt d i) := by
  simp [mainSetup, ssaoSetup_ssaoKernel, initialGlobals, List.getElem?_map,
    List.getElem?_range hi]

theorem kernelScale_eq {α : Type} [Field α] (i : Nat) :
    (kernelScale i : α) = 1 / 10 + ((i : α) / 64) * ((i : α) / 64) * (1 - 1 / 10) := by
  simp [kernelScale, lerp]

theorem kernelScale_le {α : Type} [LinearOrderedField α] (i j : Nat) (hij : i ≤ j) :
    (kernelScale i : α) ≤ kernelScale j := by
  have h0 : (0 : α) ≤ (i : α) := Nat.cast_nonneg i
  have h1 : (i : α) ≤ (j : α) := Nat.cast_le.mpr hij
  have h2 : (i : α) / 64 ≤ (j : α) / 64 := by
    apply div_le_div_of_nonneg_right h1
    norm_num
  have h3 : (0 : α) ≤ (i : α) / 64 := by positivity
  have h4 : (i : α) / 64 * ((i : α) / 64) ≤ (j : α) / 64 * ((j : α) / 64) :=
    mul_le_mul h2 h2 h3 (le_trans h3 h2)
  rw [kernelScale_eq, kernelScale_eq]
  have h5 : (0 : α) ≤ 1 - 1 / 10 := by norm_num
  have := mul_le_mul_of_nonneg_right h4 h5
  linarith

/-! ## The claims on `lerp` and `ssaoSetup` -/

/-- In exact arithmetic, over the real numbers, `lerp x y 0 = x` and
`lerp x y 1 = y`. -/
theorem lerp_exact (x y : ℝ) : lerp x y 0 = x ∧ lerp x y 1 = y := by
  constructor
  · simp [lerp]
  · simp [lerp]

/-- C2, as stated, fails: with the kernel size 32 the kernel that `ssaoSetup`
builds does not have 32 vectors. -/
theorem ssaoSetup_kernel_not_32 :
    globalsKernel32.ssaoKernelSize = 32 ∧
    (ssaoSetup leftToRight (fun x => x) zeroSampleDraws globalsKernel32).ssaoKernel.length ≠ 32 := by
  constructor
  · rfl
  · rw [ssaoSetup_ssaoKernel]
    simp [globalsKernel32, initialGlobals]

/-- C2, amended: whatever the kernel size `k` is, and whatever the generator
yields, `ssaoSetup` builds a kernel of exactly 64 vectors; in general it
appends 64 vectors to `ssaoKernel`. -/
theorem ssaoSetup_kernel_length {α : Type} [Field α] [DecidableEq α]
    (ev : ArgEval) (inversesqrt : α → α) (d : Nat → α) (k : Int) (env : RunEnv) :
    (ssaoSetup ev inversesqrt d
        { (initialGlobals : Globals α) with ssaoKernelSize := k }).ssaoKernel.length = 64
    ∧ (mainSetup ev inversesqrt d env).ssaoKernel.length = 64
    ∧ ∀ s : Globals α,
        (ssaoSetup ev inversesqrt d s).ssaoKernel.length = s.ssaoKernel.length + 64 := by
  refine ⟨?_, ?_, ?_⟩
  · rw [ssaoSetup_ssaoKernel]
    simp [initialGlobals]
  · rw [mainSetup, ssaoSetup_ssaoKernel]
    simp [initialGlobals]
  · intro s
    rw [ssaoSetup_ssaoKernel]
    simp

/-- C4: the scale applied to the sample of index `i` is
`lerp(0.1, 1.0, t*t)` with `t = i / kernelSize` (the kernel size is 64 when
`ssaoSetup` runs), the stored kernel vector is the normalised sample times
its random length times that scale, whatever the evaluation order of the
constructor arguments is, and the scale does not decrease with the index. -/
theorem kernelScale_mono {α : Type} [LinearOrderedField α] [DecidableEq α]
    (ev : ArgEval) (inversesqrt : α → α) (d : Nat → α) (env : RunEnv) (i j : Nat)
    (hij : i ≤ j) (hj : j < 64) :
    (kernelScale i : α)
        = lerp (1 / 10) 1
            (((i : α) / (((initialGlobals : Globals α).ssaoKernelSize : Int) : α))
              * ((i : α) / (((initialGlobals : Globals α).ssaoKernelSize : Int) : α)))
    ∧ (mainSetup ev inversesqrt d env).ssaoKernel[i]?
        = some (((normalize inversesqrt
            ⟨((ev.kernel i).assign (d (4 * i)) (d (4 * i + 1)) (d (4 * i + 2))).x * 2 - 1,
             ((ev.kernel i).assign (d (4 * i)) (d (4 * i + 1)) (d (4 * i + 2))).y * 2 - 1,
             ((ev.kernel i).assign (d (4 * i)) (d (4 * i + 1)) (d (4 * i + 2))).z⟩).map
              (fun v => v.smul (d (4 * i + 3)))).map (fun v => v.smul (kernelScale i)))
    ∧ (kernelScale i : α) ≤ kernelScale j := by
  refine ⟨?_, ?_, kernelScale_le i j hij⟩
  · simp [kernelScale, initialGlobals]
  · rw [mainSetup_kernel_get ev inversesqrt d env i (by omega)]
    simp only [kernelEntry, kernelBody, randomFloats]
    have e0 : 0 + 4 * i = 4 * i := by omega
    have e1 : 0 + 1 + 4 * i = 4 * i + 1 := by omega
    have e2 : 0 + 1 + 1 + 4 * i = 4 * i + 2 := by omega
    have e3 : 0 + 1 + 1 + 1 + 4 * i = 4 * i + 3 := by omega
    rw [e0, e1, e2, e3]

/-- Witness of C4 at the indices 3 and 10. -/
theorem kernelScale_mono_witness :
    (3 ≤ 10 ∧ 10 < 64) ∧ (kernelScale 3 : ℚ) ≤ kernelScale 10 :=
  ⟨by decide,
    (kernelScale_mono rightToLeft (fun x => x) zeroSampleDraws envA 3 10 (by decide)
      (by decide)).2.2⟩

/-- C5: for every sequence of draws in [0,1] the noise tile has exactly 16
vectors, each with z = 0 and with x and y in [-1, 1]. -/
theorem ssaoSetup_noise {α : Type} [LinearOrderedField α] [DecidableEq α]
    (ev : ArgEval) (inversesqrt : α → α) (d : Nat → α) (env : RunEnv)
    (hd : ∀ n, 0 ≤ d n ∧ d n ≤ 1) :
    (mainSetup ev inversesqrt d env).ssaoNoise.length = 16
    ∧ ∀ v ∈ (mainSetup ev inversesqrt d env).ssaoNoise,
        v.z = 0 ∧ -1 ≤ v.x ∧ v.x ≤ 1 ∧ -1 ≤ v.y ∧ v.y ≤ 1 := by
  rw [mainSetup, ssaoSetup_ssaoNoise]
  constructor
  · simp [initialGlobals]
  · intro v hv
    simp only [initialGlobals, List.nil_append, List.mem_map, List.mem_range] at hv
    obtain ⟨i, _, rfl⟩ := hv
    have hx := hd (0 + 2 * i + 256)
    have hy := hd (0 + 1 + 2 * i + 256)
    refine ⟨rfl, ?_⟩
    cases h : (ev.noise i).xBeforeY
    · simp only [noiseEntry, noiseBody, randomFloats, h, Bool.false_eq_true, if_false]
      refine ⟨?_, ?_, ?_, ?_⟩ <;> linarith [hx.1, hx.2, hy.1, hy.2]
    · simp only [noiseEntry, noiseBody, randomFloats, h, if_true]
      refine ⟨?_, ?_, ?_, ?_⟩ <;> linarith [hx.1, hx.2, hy.1, hy.2]

/-- Witness of C5 on the constant draws 1/2. -/
theorem ssaoSetup_noise_witness :
    (∀ n : Nat, (0 : ℚ) ≤ (fun _ => 1 / 2) n ∧ (fun _ => (1 : ℚ) / 2) n ≤ 1)
    ∧ (mainSetup leftToRight (fun x => x) (fun _ => (1 : ℚ) / 2) envA).ssaoNoise.length = 16 :=
  ⟨fun _ => by norm_num,
    (ssaoSetup_noise leftToRight (fun x => x) (fun _ => (1 : ℚ) / 2) envA
      (fun _ => by norm_num)).1⟩

/-! ## Lemmas on the replay of a frame -/

theorem runGL_append {α : Type} (st : GLState) (a b : List (Cmd α)) :
    runGL st (a ++ b)
      = ((runGL (runGL st a).1 b).1, (runGL st a).2 ++ (runGL (runGL st a).1 b).2) := by
  induction a generalizing st with
  | nil => simp [runGL]
  | cons c cs ih => simp [runGL, ih, List.append_assoc]

theorem runGL_uniforms {α : Type} (st : GLState) (sh : Shader) (name : Nat → String)
    (val : Nat → UVal α) (l : List Nat) :
    runGL st (l.map fun i => Cmd.uniform sh (name i) (val i)) = (st, []) := by
  induction l with
  | nil => simp [runGL]
  | cons i l ih => simp [runGL, glStep, glEvent, ih]

theorem runGL_sampleUploads {α : Type} (st : GLState) (s : Globals α) :
    runGL st (sampleUploads s) = (st, []) :=
  runGL_uniforms st Shader.ssaoShader _ _ _

theorem runGL_gBufferQuad {α : Type} (st : GLState) (fresh : Nat × Nat) (s : Globals α) :
    runGL st (gBufferQuad fresh s).2 = (st, [PassEvent.quadDraw st.drawFb st.program]) := by
  unfold gBufferQuad
  by_cases h : s.gBufferQuadVAO = 0
  · simp [h, runGL, glStep, glEvent]
  · simp [h, runGL, glStep, glEvent]

/-- The events of every frame, in the order in which they are issued. -/
theorem frameEvents_eq {α : Type} (fresh : Nat × Nat) (s : Globals α) :
    frameEvents fresh s =
      [PassEvent.timestamp Pass.geometry false,
       PassEvent.sceneDraw Framebuffer.gBuffer,
       PassEvent.timestamp Pass.geometry true,
       PassEvent.timestamp Pass.ssao false,
       PassEvent.quadDraw Framebuffer.ssaoFBO (some Shader.ssaoShader),
       PassEvent.quadDraw Framebuffer.ssaoBlurFBO (some Shader.ssaoBlurShader),
       PassEvent.timestamp Pass.ssao true,
       PassEvent.timestamp Pass.lighting false,
       PassEvent.timestamp Pass.lighting true,
       PassEvent.quadDraw Framebuffer.default (some Shader.brdfShader),
       PassEvent.timestamp Pass.forward false,
       PassEvent.depthBlit Framebuffer.gBuffer Framebuffer.default,
       PassEvent.markerDraw 1, PassEvent.markerDraw 2, PassEvent.markerDraw 3,
       PassEvent.timestamp Pass.forward true,
       PassEvent.timestamp Pass.cubemap false,
       PassEvent.cubemapDraw,
       PassEvent.timestamp Pass.cubemap true,
       PassEvent.timestamp Pass.gui false,
       PassEvent.guiDraw,
       PassEvent.timestamp Pass.gui true] := by
  unfold frameEvents renderFrame
  simp only [runGL_append, runGL_gBufferQuad, ssaoOcclusionSetup, runGL_sampleUploads]
  simp [runGL, glStep, glEvent, frameStart, geometryPass, ssaoBlurSetup, lightingPass,
    forwardPasses]

/-! ## The claims on the frame -/

/-- C6: in every frame the passes are issued in the order geometry, SSAO
occlusion, SSAO blur, lighting, depth copy, the three markers, cubemap, GUI;
hence the lighting full-screen draw comes after the draw into the blurred
occlusion buffer, and every marker draw and the cubemap draw come after the
depth blit from the G-buffer. -/
theorem framePasses_order {α : Type} (fresh : Nat × Nat) (s : Globals α) :
    framePasses fresh s =
      [PassEvent.sceneDraw Framebuffer.gBuffer,
       PassEvent.quadDraw Framebuffer.ssaoFBO (some Shader.ssaoShader),
       PassEvent.quadDraw Framebuffer.ssaoBlurFBO (some Shader.ssaoBlurShader),
       PassEvent.quadDraw Framebuffer.default (some Shader.brdfShader),
       PassEvent.depthBlit Framebuffer.gBuffer Framebuffer.default,
       PassEvent.markerDraw 1, PassEvent.markerDraw 2, PassEvent.markerDraw 3,
       PassEvent.cubemapDraw,
       PassEvent.guiDraw]
    ∧ ComesAfter (frameEvents fresh s)
        (PassEvent.quadDraw Framebuffer.ssaoBlurFBO (some Shader.ssaoBlurShader))
        (PassEvent.quadDraw Framebuffer.default (some Shader.brdfShader))
    ∧ (∀ lamp : Nat, ComesAfter (frameEvents fresh s)
        (PassEvent.depthBlit Framebuffer.gBuffer Framebuffer.default)
        (PassEvent.markerDraw lamp))
    ∧ ComesAfter (frameEvents fresh s)
        (PassEvent.depthBlit Framebuffer.gBuffer Framebuffer.default)
        PassEvent.cubemapDraw := by
  unfold framePasses
  rw [frameEvents_eq]
  refine ⟨by decide, by decide, ?_, by decide⟩
  intro lamp j hj h
  refine ⟨11, ?_, by decide⟩
  have hj22 : j < 22 := hj
  interval_cases j <;> simp_all

/-- C7 at the failing input: when the driver reports only the geometry query
as available, the polling loop exits after one iteration, although five of
the six flags are not set and the lighting query never becomes available. -/
theorem pollLoop_exits_on_one_flag (fuel : Nat) :
    pollLoop geometryOnly (fuel + 2) 0 Avail.zero
        = some (⟨true, false, false, false, false, false⟩, 1)
    ∧ Avail.all ⟨true, false, false, false, false, false⟩ = false
    ∧ ∀ n, (geometryOnly n).lighting = false := by
  refine ⟨?_, by decide, fun _ => rfl⟩
  simp [pollLoop, pollCond, Avail.zero, geometryOnly]

/-- C8 at every frame: the full-screen quad draw of the lighting pass is not
between the start and the stop timestamp of the lighting pass, it is issued
after the stop; the draws of the other five passes are bracketed by the
timestamps of their pass. -/
theorem lighting_draw_outside_bracket {α : Type} (fresh : Nat × Nat) (s : Globals α) :
    ¬ Bracketed (frameEvents fresh s) Pass.lighting
        (PassEvent.quadDraw Framebuffer.default (some Shader.brdfShader))
    ∧ ComesAfter (frameEvents fresh s) (PassEvent.timestamp Pass.lighting true)
        (PassEvent.quadDraw Framebuffer.default (some Shader.brdfShader))
    ∧ Bracketed (frameEvents fresh s) Pass.geometry (PassEvent.sceneDraw Framebuffer.gBuffer)
    ∧ Bracketed (frameEvents fresh s) Pass.ssao
        (PassEvent.quadDraw Framebuffer.ssaoFBO (some Shader.ssaoShader))
    ∧ Bracketed (frameEvents fresh s) Pass.ssao
        (PassEvent.quadDraw Framebuffer.ssaoBlurFBO (some Shader.ssaoBlurShader))
    ∧ Bracketed (frameEvents fresh s) Pass.forward
        (PassEvent.depthBlit Framebuffer.gBuffer Framebuffer.default)
    ∧ Bracketed (frameEvents fresh s) Pass.forward (PassEvent.markerDraw 1)
    ∧ Bracketed (frameEvents fresh s) Pass.forward (PassEvent.markerDraw 2)
    ∧ Bracketed (frameEvents fresh s) Pass.forward (PassEvent.markerDraw 3)
    ∧ Bracketed (frameEvents fresh s) Pass.cubemap PassEvent.cubemapDraw
    ∧ Bracketed (frameEvents fresh s) Pass.gui PassEvent.guiDraw := by
  rw [frameEvents_eq]
  decide

theorem pollLoop_exit (gpu : Nat → Avail) (fuel n : Nat) (a b : Avail) (m : Nat)
    (h : pollLoop gpu fuel n a = some (b, m)) : pollCond b = false := by
  induction fuel generalizing n a with
  | zero => simp [pollLoop] at h
  | succ fuel ih =>
    unfold pollLoop at h
    by_cases hc : pollCond a = true
    · rw [if_pos hc] at h
      exact ih _ _ h
    · rw [if_neg hc] at h
      simp only [Option.some.injEq, Prod.mk.injEq] at h
      rw [← h.1]
      simpa using hc

/-! ## The overlay and the lighting uniforms -/

theorem SliderFloat_mem {α : Type} [LinearOrder α] (v lo hi : α) (request : Option α)
    (hlo : lo ≤ hi) (hv : lo ≤ v ∧ v ≤ hi) :
    lo ≤ SliderFloat v lo hi request ∧ SliderFloat v lo hi request ≤ hi := by
  cases request with
  | none => exact hv
  | some r => exact ⟨le_max_left _ _, max_le hlo (min_le_right _ _)⟩

theorem SliderFloat_some {α : Type} [LinearOrder α] (v lo hi r : α) (hlo : lo ≤ hi) :
    (r < lo → SliderFloat v lo hi (some r) = lo)
    ∧ (hi < r → SliderFloat v lo hi (some r) = hi)
    ∧ (lo ≤ r → r ≤ hi → SliderFloat v lo hi (some r) = r) := by
  refine ⟨fun h => ?_, fun h => ?_, fun h1 h2 => ?_⟩
  · show max lo (min r hi) = lo
    rw [min_eq_left (le_trans h.le hlo), max_eq_left h.le]
  · show max lo (min r hi) = hi
    rw [min_eq_right h.le, max_eq_right hlo]
  · show max lo (min r hi) = r
    rw [min_eq_left h2, max_eq_right h1]

theorem imGuiSetup_inRange {α : Type} [LinearOrderedField α] (ui : OverlayInput α)
    (s : Globals α) (h : MaterialInRange s) : MaterialInRange (imGuiSetup ui s) :=
  ⟨SliderFloat_mem _ 0 1 _ zero_le_one h.1, SliderFloat_mem _ 0 1 _ zero_le_one h.2.1,
    SliderFloat_mem _ 0 1 _ zero_le_one h.2.2.1, SliderFloat_mem _ 0 1 _ zero_le_one h.2.2.2⟩

theorem gBufferQuad_material {α : Type} (fresh : Nat × Nat) (s : Globals α) :
    (gBufferQuad fresh s).1.materialRoughness = s.materialRoughness
    ∧ (gBufferQuad fresh s).1.materialMetallicity = s.materialMetallicity
    ∧ (gBufferQuad fresh s).1.materialF0 = s.materialF0
    ∧ (gBufferQuad fresh s).1.ssaoVisibility = s.ssaoVisibility := by
  unfold gBufferQuad
  by_cases h : s.gBufferQuadVAO = 0 <;> simp [h]

theorem renderFrame_inRange {α : Type} [LinearOrderedField α] (fresh : Nat × Nat)
    (s : Globals α) (h : MaterialInRange s) : MaterialInRange (renderFrame fresh s).1 := by
  have h1 := gBufferQuad_material fresh s
  have h2 := gBufferQuad_material fresh (gBufferQuad fresh s).1
  have h3 := gBufferQuad_material fresh (gBufferQuad fresh (gBufferQuad fresh s).1).1
  unfold MaterialInRange renderFrame
  simp only [h3.1, h3.2.1, h3.2.2.1, h3.2.2.2, h2.1, h2.2.1, h2.2.2.1, h2.2.2.2,
    h1.1, h1.2.1, h1.2.2.1, h1.2.2.2]
  exact h

theorem runFrames_inRange {α : Type} [LinearOrderedField α] (fresh : Nat × Nat)
    (inputs : List (OverlayInput α)) (s : Globals α) (h : MaterialInRange s) :
    MaterialInRange (runFrames fresh inputs s) := by
  induction inputs generalizing s with
  | nil => exact h
  | cons ui rest ih =>
    exact ih _ (renderFrame_inRange fresh _ (imGuiSetup_inRange ui s h))

theorem mainSetup_inRange {α : Type} [LinearOrderedField α] [DecidableEq α]
    (ev : ArgEval) (inversesqrt : α → α) (d : Nat → α) (env : RunEnv) :
    MaterialInRange (mainSetup ev inversesqrt d env) := by
  simp only [MaterialInRange, mainSetup, ssaoSetup, initialGlobals]
  norm_num

theorem uniform_not_mem_gBufferQuad {α : Type} (fresh : Nat × Nat) (s : Globals α)
    (sh : Shader) (name : String) (v : UVal α) :
    Cmd.uniform sh name v ∉ (gBufferQuad fresh s).2 := by
  unfold gBufferQuad
  by_cases h : s.gBufferQuadVAO = 0 <;> simp [h]

theorem lightingPass_gBufferQuad {α : Type} (fresh : Nat × Nat) (s : Globals α) :
    lightingPass (gBufferQuad fresh s).1 = lightingPass s := by
  unfold gBufferQuad
  by_cases h : s.gBufferQuadVAO = 0 <;> simp [h, lightingPass]

/-- The uniforms a frame sends to the lighting shader are those of
`lightingPass`, filled from the globals the frame starts with. -/
theorem brdf_uniform_mem {α : Type} (fresh : Nat × Nat) (s : Globals α) (name : String)
    (v : UVal α) (h : Cmd.uniform Shader.brdfShader name v ∈ (renderFrame fresh s).2) :
    Cmd.uniform Shader.brdfShader name v ∈ lightingPass s := by
  have n1 := uniform_not_mem_gBufferQuad fresh s Shader.brdfShader name v
  have n2 := uniform_not_mem_gBufferQuad fresh (gBufferQuad fresh s).1 Shader.brdfShader name v
  have n3 := uniform_not_mem_gBufferQuad fresh (gBufferQuad fresh (gBufferQuad fresh s).1).1
    Shader.brdfShader name v
  unfold renderFrame at h
  simp only [List.mem_append] at h
  rw [lightingPass_gBufferQuad, lightingPass_gBufferQuad] at h
  rcases h with ((((((((h | h) | h) | h) | h) | h) | h) | h) | h) | h
  · simp [geometryPass] at h
  · simp [ssaoOcclusionSetup, sampleUploads] at h
  · exact absurd h n1
  · simp at h
  · simp [ssaoBlurSetup] at h
  · exact absurd h n2
  · simp at h
  · exact h
  · exact absurd h n3
  · simp [forwardPasses] at h

theorem lightingPass_mem_renderFrame {α : Type} (fresh : Nat × Nat) (s : Globals α)
    (c : Cmd α) (h : c ∈ lightingPass s) : c ∈ (renderFrame fresh s).2 := by
  unfold renderFrame
  simp only [List.mem_append]
  rw [lightingPass_gBufferQuad, lightingPass_gBufferQuad]
  exact Or.inl (Or.inl (Or.inr h))

/-- C9 (the sliders are modelled from the spec): roughness, metallicity, F0
and occlusion visibility start inside [0,1]; after any history of overlay
inputs they are inside [0,1] when the passes of a frame read them; every
float the frame sends to the lighting shader lies in [0,1], and the four
values sent are the stored ones; a request below 0 stores 0 and a request
above 1 stores 1. -/
theorem material_clamped {α : Type} [LinearOrderedField α] [DecidableEq α]
    (ev : ArgEval) (inversesqrt : α → α) (d : Nat → α) (env : RunEnv) (fresh : Nat × Nat)
    (inputs : List (OverlayInput α)) (ui : OverlayInput α) :
    MaterialInRange (mainSetup ev inversesqrt d env)
    ∧ MaterialInRange (frameGlobals ev inversesqrt d env fresh inputs ui)
    ∧ (∀ name v, Cmd.uniform Shader.brdfShader name (UVal.float v)
          ∈ (renderFrame fresh (frameGlobals ev inversesqrt d env fresh inputs ui)).2 →
        0 ≤ v ∧ v ≤ 1)
    ∧ (∀ name x y z, Cmd.uniform Shader.brdfShader name (UVal.float3 x y z)
          ∈ (renderFrame fresh (frameGlobals ev inversesqrt d env fresh inputs ui)).2 →
        (0 ≤ x ∧ x ≤ 1) ∧ (0 ≤ y ∧ y ≤ 1) ∧ (0 ≤ z ∧ z ≤ 1))
    ∧ [Cmd.uniform Shader.brdfShader "materialRoughness"
          (UVal.float (frameGlobals ev inversesqrt d env fresh inputs ui).materialRoughness),
       Cmd.uniform Shader.brdfShader "materialMetallicity"
          (UVal.float (frameGlobals ev inversesqrt d env fresh inputs ui).materialMetallicity),
       Cmd.uniform Shader.brdfShader "materialF0"
          (UVal.float3 (frameGlobals ev inversesqrt d env fresh inputs ui).materialF0
            (frameGlobals ev inversesqrt d env fresh inputs ui).materialF0
            (frameGlobals ev inversesqrt d env fresh inputs ui).materialF0),
       Cmd.uniform Shader.brdfShader "ssaoVisibility"
          (UVal.float (frameGlobals ev inversesqrt d env fresh inputs ui).ssaoVisibility)]
        ⊆ (renderFrame fresh (frameGlobals ev inversesqrt d env fresh inputs ui)).2
    ∧ (∀ r, ui.roughness = some r →
        (r < 0 → (frameGlobals ev inversesqrt d env fresh inputs ui).materialRoughness = 0)
        ∧ (1 < r → (frameGlobals ev inversesqrt d env fresh inputs ui).materialRoughness = 1))
    ∧ (∀ r, ui.metallicity = some r →
        (r < 0 → (frameGlobals ev inversesqrt d env fresh inputs ui).materialMetallicity = 0)
        ∧ (1 < r → (frameGlobals ev inversesqrt d env fresh inputs ui).materialMetallicity = 1))
    ∧ (∀ r, ui.f0 = some r →
        (r < 0 → (frameGlobals ev inversesqrt d env fresh inputs ui).materialF0 = 0)
        ∧ (1 < r → (frameGlobals ev inversesqrt d env fresh inputs ui).materialF0 = 1))
    ∧ (∀ r, ui.visibility = some r →
        (r < 0 → (frameGlobals ev inversesqrt d env fresh inputs ui).ssaoVisibility = 0)
        ∧ (1 < r → (frameGlobals ev inversesqrt d env fresh inputs ui).ssaoVisibility = 1)) := by
  have hG : MaterialInRange (frameGlobals ev inversesqrt d env fresh inputs ui) :=
    imGuiSetup_inRange ui _
      (runFrames_inRange fresh inputs _ (mainSetup_inRange ev inversesqrt d env))
  refine ⟨mainSetup_inRange ev inversesqrt d env, hG, ?_, ?_, ?_, ?_, ?_, ?_, ?_⟩
  · intro name v h
    have hm := brdf_uniform_mem fresh _ name _ h
    simp only [lightingPass, List.mem_cons, Cmd.uniform.injEq, UVal.float.injEq,
      List.mem_singleton, reduceCtorEq, false_and, and_false, false_or, or_false,
      true_and, List.not_mem_nil] at hm
    rcases hm with ⟨_, rfl⟩ | ⟨_, rfl⟩ | ⟨_, rfl⟩
    · exact hG.1
    · exact hG.2.1
    · exact hG.2.2.2
  · intro name x y z h
    have hm := brdf_uniform_mem fresh _ name _ h
    simp only [lightingPass, List.mem_cons, Cmd.uniform.injEq, UVal.float3.injEq,
      List.mem_singleton, reduceCtorEq, false_and, and_false, false_or, or_false,
      true_and, List.not_mem_nil] at hm
    obtain ⟨_, rfl, rfl, rfl⟩ := hm
    exact ⟨hG.2.2.1, hG.2.2.1, hG.2.2.1⟩
  · intro c hc
    apply lightingPass_mem_renderFrame
    simp only [List.mem_cons, List.mem_singleton, List.not_mem_nil, or_false] at hc
    rcases hc with rfl | rfl | rfl | rfl <;> simp [lightingPass]
  · intro r hr
    have h := SliderFloat_some
      (runFrames fresh inputs (mainSetup ev inversesqrt d env)).materialRoughness 0 1 r zero_le_one
    simp only [frameGlobals, imGuiSetup, hr]
    exact ⟨h.1, h.2.1⟩
  · intro r hr
    have h := SliderFloat_some
      (runFrames fresh inputs (mainSetup ev inversesqrt d env)).materialMetallicity 0 1 r
      zero_le_one
    simp only [frameGlobals, imGuiSetup, hr]
    exact ⟨h.1, h.2.1⟩
  · intro r hr
    have h := SliderFloat_some
      (runFrames fresh inputs (mainSetup ev inversesqrt d env)).materialF0 0 1 r zero_le_one
    simp only [frameGlobals, imGuiSetup, hr]
    exact ⟨h.1, h.2.1⟩
  · intro r hr
    have h := SliderFloat_some
      (runFrames fresh inputs (mainSetup ev inversesqrt d env)).ssaoVisibility 0 1 r zero_le_one
    simp only [frameGlobals, imGuiSetup, hr]
    exact ⟨h.1, h.2.1⟩

/-! ## The full-screen quad is created once -/

theorem gBufferQuad_of_created {α : Type} (fresh : Nat × Nat) (s : Globals α)
    (h : s.gBufferQuadVAO ≠ 0) :
    gBufferQuad fresh s
      = (s, [Cmd.bindVertexArray s.gBufferQuadVAO, Cmd.drawArrays, Cmd.bindVertexArray 0]) := by
  unfold gBufferQuad
  simp [h]

theorem quadCalls_of_created {α : Type} (later : List (Nat × Nat)) (s : Globals α)
    (h : s.gBufferQuadVAO ≠ 0) : quadCalls later s = s := by
  induction later with
  | nil => rfl
  | cons fresh rest ih =>
    show quadCalls rest (gBufferQuad fresh s).1 = s
    rw [gBufferQuad_of_created fresh s h]
    exact ih

/-- C11: a call of `gBufferQuad` with the handle 0 creates the vertex array
and the buffer and draws with the new handle; when that handle is not 0,
every later call, after any number of calls, draws with the same handle,
issues no creation command and leaves the globals as they are. -/
theorem gBufferQuad_lazy {α : Type} (fresh : Nat × Nat) (s : Globals α)
    (h0 : s.gBufferQuadVAO = 0) (hf : fresh.1 ≠ 0)
    (later : List (Nat × Nat)) (fresh2 : Nat × Nat) :
    (gBufferQuad fresh s).2
      = [Cmd.genVertexArrays fresh.1, Cmd.genBuffers fresh.2,
         Cmd.bindVertexArray fresh.1, Cmd.bindBuffer fresh.2, Cmd.bufferData,
         Cmd.enableVertexAttribArray 0, Cmd.vertexAttribPointer 0,
         Cmd.enableVertexAttribArray 1, Cmd.vertexAttribPointer 1,
         Cmd.bindVertexArray fresh.1, Cmd.drawArrays, Cmd.bindVertexArray 0]
    ∧ (gBufferQuad fresh s).1.gBufferQuadVAO = fresh.1
    ∧ (quadCalls later (gBufferQuad fresh s).1).gBufferQuadVAO = fresh.1
    ∧ gBufferQuad fresh2 (quadCalls later (gBufferQuad fresh s).1)
        = (quadCalls later (gBufferQuad fresh s).1,
            [Cmd.bindVertexArray fresh.1, Cmd.drawArrays, Cmd.bindVertexArray 0]) := by
  have h1 : (gBufferQuad fresh s).1.gBufferQuadVAO = fresh.1 := by
    unfold gBufferQuad
    simp [h0]
  have h2 : (gBufferQuad fresh s).1.gBufferQuadVAO ≠ 0 := by
    rw [h1]
    exact hf
  have h3 : quadCalls later (gBufferQuad fresh s).1 = (gBufferQuad fresh s).1 :=
    quadCalls_of_created later _ h2
  refine ⟨?_, h1, ?_, ?_⟩
  · unfold gBufferQuad
    simp [h0]
  · rw [h3, h1]
  · rw [h3, gBufferQuad_of_created fresh2 _ h2, h1]

/-- Witness of C11: the first call at program start when the driver hands out
the names 7 and 8, then three more calls and a fifth one. -/
theorem gBufferQuad_lazy_witness :
    ((initialGlobals : Globals ℚ).gBufferQuadVAO = 0 ∧ ((7, 8) : Nat × Nat).1 ≠ 0)
    ∧ (quadCalls [(9, 10), (11, 12), (13, 14)]
        (gBufferQuad (7, 8) (initialGlobals : Globals ℚ)).1).gBufferQuadVAO = 7 :=
  ⟨⟨rfl, by decide⟩,
    (gBufferQuad_lazy (7, 8) (initialGlobals : Globals ℚ) rfl (by decide)
      [(9, 10), (11, 12), (13, 14)] (15, 16)).2.2.1⟩

/-! ## The blur -/

theorem clampCoord_zero {n : Nat} (i : Fin n) : clampCoord i 0 = i := by
  apply Fin.ext
  have h := i.isLt
  simp only [clampCoord, add_zero, Int.toNat_ofNat]
  omega

theorem blur_zero {α : Type} [Field α] {w h : Nat} (occlusion : Buffer α w h) :
    blur 0 occlusion = occlusion := by
  funext x y
  have h0 : boxOffsets 0 = [0] := rfl
  simp only [blur, h0, List.map_cons, List.map_nil, List.sum_cons, List.sum_nil, add_zero,
    clampCoord_zero]
  simp

theorem blur_const {α : Type} [Field α] [CharZero α] {w h : Nat} (blurSize : Nat) (c : α) :
    blur blurSize (fun _ _ => c : Buffer α w h) = fun _ _ => c := by
  funext x y
  have hne : ((2 * (blurSize : α) + 1) : α) ≠ 0 := by
    have : ((2 * blurSize + 1 : Nat) : α) ≠ 0 := Nat.cast_ne_zero.mpr (by omega)
    simpa using this
  have hlen : (boxOffsets blurSize).length = 2 * blurSize + 1 := by
    simp only [boxOffsets, List.length_map, List.length_range]
  simp only [blur, List.map_const', List.sum_replicate, hlen, nsmul_eq_mul, Nat.cast_mul,
    Nat.cast_add, Nat.cast_ofNat, Nat.cast_one]
  field_simp
  ring

/-- C12 (the blur shader is modelled from the spec): with `blurSize = 0` the
blur returns the occlusion buffer it is given, and for every blur size, the
sizes 0 to 16 among them, a constant buffer is returned unchanged; the same
holds for the blur pass reading `ssaoBlurSize`. -/
theorem blur_identity {α : Type} [Field α] [CharZero α] {w h : Nat} (s : Globals α) :
    (∀ occlusion : Buffer α w h, blur 0 occlusion = occlusion)
    ∧ (∀ occlusion : Buffer α w h,
        blurPass { s with ssaoBlurSize := 0 } occlusion = occlusion)
    ∧ (∀ (blurSize : Nat) (c : α),
        blur blurSize (fun _ _ => c : Buffer α w h) = fun _ _ => c)
    ∧ (∀ (blurSize : Nat) (c : α),
        blurPass { s with ssaoBlurSize := (blurSize : Int) } (fun _ _ => c : Buffer α w h)
          = fun _ _ => c) := by
  refine ⟨blur_zero, fun occlusion => ?_, blur_const, fun blurSize c => ?_⟩
  · exact blur_zero occlusion
  · show blur ((blurSize : Int)).toNat _ = _
    rw [Int.toNat_ofNat]
    exact blur_const blurSize c

/-- Witness of C12 over the rationals: a 2 by 2 buffer with four different
values and blur size 0, and the constant buffer 3/4 with blur size 16. -/
theorem blur_identity_witness :
    blur 0 smallBuffer = smallBuffer
    ∧ blur 16 (fun _ _ => 3 / 4 : Buffer ℚ 2 2) = fun _ _ => 3 / 4 :=
  ⟨(blur_identity (initialGlobals : Globals ℚ)).1 smallBuffer,
    (blur_identity (initialGlobals : Globals ℚ)).2.2.1 16 (3 / 4)⟩

/-! ## Keyboard input -/

theorem initialGlobals_keys_length {α : Type} [Field α] :
    (initialGlobals : Globals α).keys.length = 1024 :=
  List.length_replicate 1024 false

theorem selectView_range (k : Glfw) (keys : List Bool) (view : Int)
    (h : 1 ≤ view ∧ view ≤ 5) :
    1 ≤ selectView k keys view ∧ selectView k keys view ≤ 5 := by
  simp only [selectView]
  split_ifs <;> omega

theorem handleKeys_range {α : Type} (k : Glfw) (events : List KeyEvent) (s : Globals α)
    (h : 1 ≤ s.gBufferView ∧ s.gBufferView ≤ 5) :
    1 ≤ (handleKeys k events s).gBufferView ∧ (handleKeys k events s).gBufferView ≤ 5 := by
  induction events generalizing s with
  | nil => exact h
  | cons e rest ih =>
    exact ih _ (selectView_range k s.keys s.gBufferView h)

/-- C13: `gBufferView` is 1 when the program starts, and after every sequence
of key events handled by `key_callback`, whatever the key codes and the
actions are, it is one of 1, 2, 3, 4, 5. -/
theorem gBufferView_range {α : Type} [Field α] (k : Glfw) (events : List KeyEvent) :
    (initialGlobals : Globals α).gBufferView = 1
    ∧ (handleKeys k events (initialGlobals : Globals α)).gBufferView
        ∈ ([1, 2, 3, 4, 5] : List Int) := by
  refine ⟨rfl, ?_⟩
  have h := handleKeys_range k events (initialGlobals : Globals α)
    ⟨by simp [initialGlobals], by simp [initialGlobals]⟩
  generalize (handleKeys k events (initialGlobals : Globals α)).gBufferView = v at h
  simp only [List.mem_cons, List.mem_singleton, List.not_mem_nil, or_false]
  omega

theorem keyHeld_set (keys : List Bool) (i j : Nat) (b : Bool) :
    keyHeld (keys.set i b) j
      = if i = j then (if i < keys.length then b else false) else keyHeld keys j := by
  unfold keyHeld
  rw [List.getD_eq_getElem?_getD, List.getD_eq_getElem?_getD, List.getElem?_set]
  by_cases hij : i = j
  · subst hij
    by_cases hl : i < keys.length
    · simp [hl]
    · simp [hl]
  · simp [hij]

theorem updateKeys_length (k : Glfw) (keys : List Bool) (key action : Int) :
    (updateKeys k keys key action).length = keys.length := by
  unfold updateKeys
  split_ifs <;> simp

theorem updateKeys_press_digit (k : Glfw) (keys : List Bool) (c : Nat) (hc : c < 1024) :
    updateKeys k keys (c : Int) k.GLFW_PRESS = keys.set c true := by
  have h1 : (0 : Int) ≤ (c : Int) := Int.ofNat_nonneg c
  have h2 : (c : Int) < 1024 := by exact_mod_cast hc
  unfold updateKeys
  rw [if_pos ⟨h1, h2⟩, if_pos rfl, Int.toNat_ofNat]

/-- C16: `key_callback` keeps the 1024 entries of `keys`; for a key code in
[0, 1024) a press sets the entry of the key to true, a release sets it to
false and any other action leaves the array as it was; every entry other than
that of the key is unchanged; for a key code outside [0, 1024) the whole
array is unchanged. -/
theorem key_callback_keys {α : Type} (k : Glfw) (s : Globals α)
    (key scancode action mode : Int)
    (hlen : s.keys.length = 1024) (hpr : k.GLFW_PRESS ≠ k.GLFW_RELEASE) :
    (key_callback k s key scancode action mode).1.keys.length = 1024
    ∧ (0 ≤ key → key < 1024 → action = k.GLFW_PRESS →
        (key_callback k s key scancode action mode).1.keys[key.toNat]? = some true)
    ∧ (0 ≤ key → key < 1024 → action = k.GLFW_RELEASE →
        (key_callback k s key scancode action mode).1.keys[key.toNat]? = some false)
    ∧ (action ≠ k.GLFW_PRESS → action ≠ k.GLFW_RELEASE →
        (key_callback k s key scancode action mode).1.keys = s.keys)
    ∧ (∀ i : Nat, (i : Int) ≠ key →
        (key_callback k s key scancode action mode).1.keys[i]? = s.keys[i]?)
    ∧ (¬ (0 ≤ key ∧ key < 1024) →
        (key_callback k s key scancode action mode).1.keys = s.keys) := by
  show (updateKeys k s.keys key action).length = 1024
    ∧ (0 ≤ key → key < 1024 → action = k.GLFW_PRESS →
        (updateKeys k s.keys key action)[key.toNat]? = some true)
    ∧ (0 ≤ key → key < 1024 → action = k.GLFW_RELEASE →
        (updateKeys k s.keys key action)[key.toNat]? = some false)
    ∧ (action ≠ k.GLFW_PRESS → action ≠ k.GLFW_RELEASE →
        updateKeys k s.keys key action = s.keys)
    ∧ (∀ i : Nat, (i : Int) ≠ key → (updateKeys k s.keys key action)[i]? = s.keys[i]?)
    ∧ (¬ (0 ≤ key ∧ key < 1024) → updateKeys k s.keys key action = s.keys)
  refine ⟨?_, ?_, ?_, ?_, ?_, ?_⟩
  · rw [updateKeys_length, hlen]
  · intro h0 h1 ha
    have hlt : key.toNat < s.keys.length := by omega
    unfold updateKeys
    rw [if_pos ⟨h0, h1⟩, if_pos ha, List.getElem?_set, if_pos rfl, if_pos hlt]
  · intro h0 h1 ha
    have hlt : key.toNat < s.keys.length := by omega
    have hnp : action ≠ k.GLFW_PRESS := by
      rw [ha]
      exact fun h => hpr h.symm
    unfold updateKeys
    rw [if_pos ⟨h0, h1⟩, if_neg hnp, if_pos ha, List.getElem?_set, if_pos rfl, if_pos hlt]
  · intro hp hr
    unfold updateKeys
    split_ifs <;> rfl
  · intro i hi
    have hne : key.toNat ≠ i ∨ ¬ (0 ≤ key) := by omega
    unfold updateKeys
    split_ifs with h1 h2 h3
    · rw [List.getElem?_set_ne (by omega)]
    · rw [List.getElem?_set_ne (by omega)]
    · rfl
    · rfl
  · intro h
    unfold updateKeys
    rw [if_neg h]

/-- Witness of C16: the press of the key W (code 87) at program start. -/
theorem key_callback_keys_witness :
    ((initialGlobals : Globals ℚ).keys.length = 1024 ∧ glfw3.GLFW_PRESS ≠ glfw3.GLFW_RELEASE)
    ∧ (key_callback glfw3 (initialGlobals : Globals ℚ) 87 0 1 0).1.keys.length = 1024 :=
  ⟨⟨initialGlobals_keys_length, by decide⟩,
    (key_callback_keys glfw3 (initialGlobals : Globals ℚ) 87 0 1 0
      initialGlobals_keys_length (by decide)).1⟩

/-- C14: when no digit key 1 to 5 is recorded as held, the press event of the
digit key `n` leaves `gBufferView` as it was and records the key as held; the
key event handled next, whatever it is, sets `gBufferView` to `n`. -/
theorem key_callback_view_lag {α : Type} (k : Glfw) (hk : k.DigitsOk) (s : Globals α)
    (hlen : s.keys.length = 1024)
    (hnone : ∀ m, 1 ≤ m → m ≤ 5 → keyHeld s.keys (k.digitKey m) = false)
    (n : Nat) (h1 : 1 ≤ n) (h5 : n ≤ 5) (scancode mode : Int) (next : KeyEvent) :
    (key_callback k s (k.digitKey n) scancode k.GLFW_PRESS mode).1.gBufferView
        = s.gBufferView
    ∧ keyHeld (key_callback k s (k.digitKey n) scancode k.GLFW_PRESS mode).1.keys
        (k.digitKey n) = true
    ∧ (key_callback k (key_callback k s (k.digitKey n) scancode k.GLFW_PRESS mode).1
        next.key next.scancode next.action next.mode).1.gBufferView = (n : Int) := by
  have e1 : keyHeld s.keys k.GLFW_KEY_1 = false := hnone 1 (by omega) (by omega)
  have e2 : keyHeld s.keys k.GLFW_KEY_2 = false := hnone 2 (by omega) (by omega)
  have e3 : keyHeld s.keys k.GLFW_KEY_3 = false := hnone 3 (by omega) (by omega)
  have e4 : keyHeld s.keys k.GLFW_KEY_4 = false := hnone 4 (by omega) (by omega)
  have e5 : keyHeld s.keys k.GLFW_KEY_5 = false := hnone 5 (by omega) (by omega)
  obtain ⟨hnd, hlt⟩ := hk
  simp only [List.nodup_cons, List.mem_cons, List.mem_singleton, List.not_mem_nil,
    not_or, or_false, List.nodup_nil, and_true, not_false_eq_true] at hnd
  simp only [List.mem_cons, List.mem_singleton, List.not_mem_nil, or_false,
    forall_eq_or_imp, forall_eq] at hlt
  obtain ⟨⟨d12, d13, d14, d15⟩, ⟨d23, d24, d25⟩, ⟨d34, d35⟩, d45⟩ := hnd
  obtain ⟨l1, l2, l3, l4, l5⟩ := hlt
  have hview : selectView k s.keys s.gBufferView = s.gBufferView := by
    simp [selectView, e1, e2, e3, e4, e5]
  have hc : k.digitKey n < 1024 := by
    interval_cases n <;> simp only [Glfw.digitKey] <;> assumption
  simp only [key_callback]
  rw [updateKeys_press_digit k s.keys _ hc]
  refine ⟨hview, ?_, ?_⟩
  · rw [keyHeld_set, if_pos rfl, if_pos (by omega)]
  · have hl1 : k.GLFW_KEY_1 < s.keys.length := by omega
    have hl2 : k.GLFW_KEY_2 < s.keys.length := by omega
    have hl3 : k.GLFW_KEY_3 < s.keys.length := by omega
    have hl4 : k.GLFW_KEY_4 < s.keys.length := by omega
    have hl5 : k.GLFW_KEY_5 < s.keys.length := by omega
    interval_cases n
    · simp [selectView, keyHeld_set, Glfw.digitKey, e1, e2, e3, e4, e5, d12, d13, d14, d15,
        hl1]
    · simp [selectView, keyHeld_set, Glfw.digitKey, e1, e2, e3, e4, e5, Ne.symm d12, d23,
        d24, d25, hl2]
    · simp [selectView, keyHeld_set, Glfw.digitKey, e1, e2, e3, e4, e5, Ne.symm d13,
        Ne.symm d23, d34, d35, hl3]
    · simp [selectView, keyHeld_set, Glfw.digitKey, e1, e2, e3, e4, e5, Ne.symm d14,
        Ne.symm d24, Ne.symm d34, d45, hl4]
    · simp [selectView, keyHeld_set, Glfw.digitKey, e1, e2, e3, e4, e5, Ne.symm d15,
        Ne.symm d25, Ne.symm d35, Ne.symm d45, hl5]

/-- Witness of C14 with the constants of `glfw3.h`: at program start the
press of the key 3 leaves the view 1, and the release of the same key, handled
next, sets the view 3. -/
theorem key_callback_view_lag_witness :
    (glfw3.DigitsOk ∧ (initialGlobals : Globals ℚ).keys.length = 1024
      ∧ (∀ m, 1 ≤ m → m ≤ 5 →
          keyHeld (initialGlobals : Globals ℚ).keys (glfw3.digitKey m) = false)
      ∧ 1 ≤ 3 ∧ 3 ≤ 5)
    ∧ (key_callback glfw3 (initialGlobals : Globals ℚ) (glfw3.digitKey 3) 0
        glfw3.GLFW_PRESS 0).1.gBufferView = 1
    ∧ (key_callback glfw3
        (key_callback glfw3 (initialGlobals : Globals ℚ) (glfw3.digitKey 3) 0
          glfw3.GLFW_PRESS 0).1
        (glfw3.digitKey 3) 0 glfw3.GLFW_RELEASE 0).1.gBufferView = 3 := by
  have hnone : ∀ m, 1 ≤ m → m ≤ 5 →
      keyHeld (initialGlobals : Globals ℚ).keys (glfw3.digitKey m) = false := by
    intro m _ _
    show (List.replicate 1024 false).getD (glfw3.digitKey m) false = false
    rw [List.getD_eq_getElem?_getD, List.getElem?_replicate]
    split <;> rfl
  have h := key_callback_view_lag glfw3 (by decide) (initialGlobals : Globals ℚ)
    initialGlobals_keys_length hnone 3 (by decide) (by decide) 0 0
    ⟨(glfw3.digitKey 3 : Nat), 0, glfw3.GLFW_RELEASE, 0⟩
  exact ⟨⟨by decide, initialGlobals_keys_length, hnone, by decide, by decide⟩, h.1, h.2.2⟩

/-! ## The kernel uniforms of a frame -/

theorem uploadCount_eq (n : Int) (h0 : 0 ≤ n) (h64 : n ≤ 64) : uploadCount n = n.toNat := by
  unfold uploadCount
  rw [Int.emod_eq_of_lt h0 (by omega)]

theorem kernelUploads_append {α : Type} (a b : List (Cmd α)) :
    kernelUploads (a ++ b) = kernelUploads a ++ kernelUploads b :=
  List.filter_append a b

theorem kernelUploads_gBufferQuad {α : Type} (fresh : Nat × Nat) (s : Globals α) :
    kernelUploads (gBufferQuad fresh s).2 = [] := by
  unfold gBufferQuad kernelUploads
  by_cases h : s.gBufferQuadVAO = 0 <;> simp [h, isKernelUpload]

theorem kernelUploads_sampleUploads {α : Type} (s : Globals α) :
    kernelUploads (sampleUploads s) = sampleUploads s := by
  unfold kernelUploads sampleUploads
  rw [List.filter_eq_self]
  intro c hc
  rw [List.mem_map] at hc
  obtain ⟨i, _, rfl⟩ := hc
  rfl

/-- The uploads of kernel entries in a frame are those of the upload loop. -/
theorem kernelUploads_renderFrame {α : Type} (fresh : Nat × Nat) (s : Globals α) :
    kernelUploads (renderFrame fresh s).2 = sampleUploads s := by
  unfold renderFrame
  simp only [kernelUploads_append, kernelUploads_gBufferQuad, ssaoOcclusionSetup,
    kernelUploads_sampleUploads]
  simp [kernelUploads, isKernelUpload, geometryPass, ssaoBlurSetup, lightingPass,
    forwardPasses]

/-- C15: for a runtime kernel size from 0 to 64 and the kernel built by
`ssaoSetup`, the frame uploads exactly the uniforms `samples[0]` to
`samples[n-1]`, in this order, each holding the kernel vector of its index,
which lies inside the 64 vectors of the kernel; and the kernel-size uniform
of the frame is `n`. -/
theorem kernel_upload {α : Type} [Field α] [DecidableEq α] (ev : ArgEval) (inversesqrt : α → α)
    (d : Nat → α) (env : RunEnv) (fresh : Nat × Nat) (s : Globals α)
    (hk : s.ssaoKernel = (mainSetup ev inversesqrt d env).ssaoKernel)
    (h0 : 0 ≤ s.ssaoKernelSize) (h64 : s.ssaoKernelSize ≤ 64) :
    kernelUploads (renderFrame fresh s).2
        = (List.range s.ssaoKernelSize.toNat).map (fun i =>
            Cmd.uniform Shader.ssaoShader ("samples[" ++ toString i ++ "]")
              (UVal.kernelEntry (some (kernelEntry ev inversesqrt d i))))
    ∧ s.ssaoKernel.length = 64
    ∧ (∀ i, i < s.ssaoKernelSize.toNat → i < s.ssaoKernel.length)
    ∧ (∀ m : Int, Cmd.uniform Shader.ssaoShader "ssaoKernelSize" (UVal.int m)
          ∈ (renderFrame fresh s).2 ↔ m = s.ssaoKernelSize) := by
  have hlen : s.ssaoKernel.length = 64 := by
    rw [hk, mainSetup, ssaoSetup_ssaoKernel]
    simp [initialGlobals]
  refine ⟨?_, hlen, ?_, ?_⟩
  · rw [kernelUploads_renderFrame]
    unfold sampleUploads
    rw [uploadCount_eq _ h0 h64]
    apply List.map_congr_left
    intro i hi
    rw [List.mem_range] at hi
    rw [hk, mainSetup_kernel_get ev inversesqrt d env i (by omega)]
  · intro i hi
    omega
  · intro m
    have n1 := uniform_not_mem_gBufferQuad fresh s Shader.ssaoShader "ssaoKernelSize"
      (UVal.int m)
    have n2 := uniform_not_mem_gBufferQuad fresh (gBufferQuad fresh s).1 Shader.ssaoShader
      "ssaoKernelSize" (UVal.int m)
    have n3 := uniform_not_mem_gBufferQuad fresh
      (gBufferQuad fresh (gBufferQuad fresh s).1).1 Shader.ssaoShader "ssaoKernelSize"
      (UVal.int m)
    unfold renderFrame
    simp only [List.mem_append]
    simp [n1, n2, n3, geometryPass, ssaoOcclusionSetup, sampleUploads, ssaoBlurSetup,
      lightingPass, forwardPasses]

/-- Witness of C15: the kernel built at program start with the kernel size
set to 32. -/
theorem kernel_upload_witness :
    ((0 : Int) ≤ 32 ∧ (32 : Int) ≤ 64)
    ∧ (kernelUploads (renderFrame (7, 8)
        { mainSetup leftToRight (fun x => x) zeroSampleDraws envA with ssaoKernelSize := 32 }).2).length
        = 32 := by
  have h := (kernel_upload leftToRight (fun x => x) zeroSampleDraws envA (7, 8)
    { mainSetup leftToRight (fun x => x) zeroSampleDraws envA with ssaoKernelSize := 32 } rfl
    (by decide) (by decide)).1
  refine ⟨by decide, ?_⟩
  rw [h]
  simp

/-! ## `lerp` in GLfloat arithmetic -/

theorem log2Fuel_eq (fuel a : Nat) (h : a ≤ fuel) : log2Fuel fuel a = Nat.log2 a := by
  induction fuel generalizing a with
  | zero =>
    have : a = 0 := by omega
    subst this
    rw [Nat.log2]
    simp [log2Fuel]
  | succ fuel ih =>
    rw [Nat.log2]
    by_cases h2 : 2 ≤ a
    · have h3 : a / 2 ≤ fuel := by omega
      simp only [log2Fuel, if_pos h2, ih _ h3]
    · simp only [log2Fuel, if_neg h2]

/-- The function `floorLog2` is the binary logarithm `Nat.log2`. -/
theorem floorLog2_eq (a : Nat) : floorLog2 a = Nat.log2 a :=
  log2Fuel_eq a a (Nat.le_refl a)

theorem floorLog2_mul_pow (a j : Nat) (ha : a ≠ 0) :
    floorLog2 (a * 2 ^ j) = floorLog2 a + j := by
  rw [floorLog2_eq, floorLog2_eq, Nat.log2_eq_log_two, Nat.log2_eq_log_two]
  induction j with
  | zero => simp
  | succ j ih =>
    rw [pow_succ, ← mul_assoc, Nat.log_mul_base (by norm_num) (by positivity), ih]
    omega

theorem roundHalfEven_scale (N D c : Nat) (hc : 0 < c) :
    roundHalfEven (N * c) (D * c) = roundHalfEven N D := by
  unfold roundHalfEven
  rw [Nat.mul_div_mul_right N D hc, Nat.mul_mod_mul_right]
  have e : 2 * (N % D * c) = 2 * (N % D) * c := by ring
  rw [e]
  simp only [Nat.mul_lt_mul_right hc]

theorem roundMagnitude_scale (a k j : Nat) (ha : a ≠ 0) :
    roundMagnitude (a * 2 ^ j) (k + j) = roundMagnitude a k := by
  unfold roundMagnitude
  rw [floorLog2_mul_pow a j ha]
  have he : (((floorLog2 a + j : Nat) : Int) - ((k + j : Nat) : Int))
      = (floorLog2 a : Int) - (k : Int) := by
    push_cast
    ring
  simp only [he]
  generalize max ((floorLog2 a : Int) - (k : Int)) (-126) - 23 = u
  congr 1
  have hc : ∀ n : Nat, 0 < 2 ^ n := fun n => pow_pos (by norm_num) n
  rcases le_or_lt 0 ((k : Int) + u) with h | h
  · obtain ⟨p, hp⟩ := Int.eq_ofNat_of_zero_le h
    have e1 : (-(((k + j : Nat) : Int) + u)).toNat = 0 := by omega
    have e2 : (((k + j : Nat) : Int) + u).toNat = p + j := by omega
    have e3 : (-((k : Int) + u)).toNat = 0 := by omega
    have e4 : ((k : Int) + u).toNat = p := by omega
    rw [e1, e2, e3, e4, pow_zero, mul_one, mul_one, pow_add]
    exact roundHalfEven_scale a (2 ^ p) (2 ^ j) (hc j)
  · rcases le_or_lt 0 (((k + j : Nat) : Int) + u) with h2 | h2
    · obtain ⟨p, hp⟩ := Int.eq_ofNat_of_zero_le h2
      obtain ⟨q, hq⟩ := Int.eq_ofNat_of_zero_le (show (0 : Int) ≤ -((k : Int) + u) by omega)
      have e1 : (-(((k + j : Nat) : Int) + u)).toNat = 0 := by omega
      have e2 : (((k + j : Nat) : Int) + u).toNat = p := by omega
      have e3 : (-((k : Int) + u)).toNat = q := by omega
      have e4 : ((k : Int) + u).toNat = 0 := by omega
      have e5 : j = q + p := by omega
      rw [e1, e2, e3, e4, pow_zero, mul_one, e5, pow_add, ← mul_assoc]
      have := roundHalfEven_scale (a * 2 ^ q) 1 (2 ^ p) (hc p)
      rw [one_mul] at this
      exact this
    · obtain ⟨q, hq⟩ := Int.eq_ofNat_of_zero_le (show (0 : Int) ≤ -((k : Int) + u) by omega)
      obtain ⟨p, hp⟩ := Int.eq_ofNat_of_zero_le
        (show (0 : Int) ≤ -(((k + j : Nat) : Int) + u) by omega)
      have e1 : (-(((k + j : Nat) : Int) + u)).toNat = p := by omega
      have e2 : (((k + j : Nat) : Int) + u).toNat = 0 := by omega
      have e3 : (-((k : Int) + u)).toNat = q := by omega
      have e4 : ((k : Int) + u).toNat = 0 := by omega
      have e5 : q = j + p := by omega
      rw [e1, e2, e3, e4, e5, pow_add, mul_assoc]

/-- Rounding depends on the number only: `m * 2^j * 2^-(k+j)` and `m * 2^-k`
round to the same GLfloat. -/
theorem GLfloat.round_scale (m : Int) (k j : Nat) :
    GLfloat.round (m * 2 ^ j) (k + j) = GLfloat.round m k := by
  by_cases hm : m = 0
  · subst hm
    simp [GLfloat.round]
  · have hp : (0 : Int) < 2 ^ j := by positivity
    have h1 : m * 2 ^ j ≠ 0 := mul_ne_zero hm hp.ne'
    have h2 : (m * 2 ^ j).natAbs = m.natAbs * 2 ^ j := by
      rw [Int.natAbs_mul, Int.natAbs_pow]
      rfl
    have h3 : (m * 2 ^ j < 0) ↔ m < 0 := by
      constructor
      · intro h
        by_contra hn
        have : 0 ≤ m * 2 ^ j := mul_nonneg (by omega) hp.le
        omega
      · intro h
        exact mul_neg_of_neg_of_pos h hp
    unfold GLfloat.round
    rw [if_neg h1, if_neg hm, h2, roundMagnitude_scale _ _ _ (Int.natAbs_ne_zero.mpr hm)]
    simp only [h3]

theorem GLfloat.round_zero (k : Nat) : GLfloat.round 0 k = GLfloat.finite 0 := by
  simp [GLfloat.round]

theorem GLfloat.ofInt_zero : GLfloat.ofInt 0 = GLfloat.finite 0 :=
  GLfloat.round_zero 0

set_option maxRecDepth 4000 in
theorem GLfloat.ofInt_one : GLfloat.ofInt 1 = GLfloat.finite (2 ^ 149) := by
  decide

theorem GLfloat.add_finite (a b : Int) :
    GLfloat.finite a + GLfloat.finite b = GLfloat.round (a + b) 149 :=
  rfl

theorem GLfloat.sub_finite (a b : Int) :
    GLfloat.finite a - GLfloat.finite b = GLfloat.round (a - b) 149 :=
  rfl

theorem GLfloat.mul_finite (a b : Int) :
    GLfloat.finite a * GLfloat.finite b = GLfloat.round (a * b) 298 :=
  rfl

set_option exponentiation.threshold 1000 in
set_option maxRecDepth 4000 in
/-- C1, as stated, fails in the arithmetic of the code: in GLfloat,
`lerp(1e8, 1, 1)` is 0 and not 1, because `1 - 1e8` rounds to `-1e8`;
`lerp(0.3f, 0.1f, 1)` is 13421772 * 2^-27 and not `0.1f`; and
`lerp(-max, max, 0)`, with `max` the largest finite GLfloat, is not a number,
because `max - (-max)` overflows.  All the arguments are GLfloat numbers. -/
theorem lerp_float_endpoints_fail :
    (lerp (GLfloat.ofInt 100000000) (GLfloat.ofInt 1) (GLfloat.ofInt 1) = GLfloat.ofInt 0
      ∧ GLfloat.ofInt 0 ≠ GLfloat.ofInt 1
      ∧ GLfloat.ofInt 100000000 = GLfloat.finite (100000000 * 2 ^ 149)
      ∧ GLfloat.ofInt 1 = GLfloat.finite (2 ^ 149))
    ∧ (lerp GLfloat.f03 GLfloat.f01 (GLfloat.ofInt 1) = GLfloat.finite (13421772 * 2 ^ 122)
      ∧ GLfloat.finite (13421772 * 2 ^ 122) ≠ GLfloat.f01
      ∧ GLfloat.round (5033165 * 2 ^ 125) 149 = GLfloat.f03
      ∧ GLfloat.round (13421773 * 2 ^ 122) 149 = GLfloat.f01)
    ∧ (lerp (GLfloat.finite (-GLfloat.maxFinite)) (GLfloat.finite GLfloat.maxFinite)
        (GLfloat.ofInt 0) = GLfloat.nonfinite
      ∧ GLfloat.round (-GLfloat.maxFinite) 149 = GLfloat.finite (-GLfloat.maxFinite)
      ∧ GLfloat.round GLfloat.maxFinite 149 = GLfloat.finite GLfloat.maxFinite) := by
  decide

/-- C1, amended: for GLfloat numbers `x` and `y` (finite, given in units of
2^-149), `lerp(x, y, 0)` is `x` whenever `y - x` does not overflow, and
`lerp(x, y, 1)` is `y` whenever the subtraction `y - x` is exact. -/
theorem lerp_float_endpoints (x y : Int)
    (hx : GLfloat.round x 149 = GLfloat.finite x)
    (hy : GLfloat.round y 149 = GLfloat.finite y) :
    (GLfloat.finite y - GLfloat.finite x ≠ GLfloat.nonfinite →
        lerp (GLfloat.finite x) (GLfloat.finite y) (GLfloat.ofInt 0) = GLfloat.finite x)
    ∧ (GLfloat.finite y - GLfloat.finite x = GLfloat.finite (y - x) →
        lerp (GLfloat.finite x) (GLfloat.finite y) (GLfloat.ofInt 1) = GLfloat.finite y) := by
  constructor
  · intro h
    unfold lerp
    rw [GLfloat.ofInt_zero]
    cases hd : GLfloat.finite y - GLfloat.finite x with
    | nonfinite => exact absurd hd h
    | finite dxy =>
      rw [GLfloat.mul_finite, zero_mul, GLfloat.round_zero, GLfloat.add_finite, add_zero, hx]
  · intro h
    unfold lerp
    rw [GLfloat.ofInt_one, h, GLfloat.mul_finite, mul_comm,
      GLfloat.round_scale (y - x) 149 149, ← GLfloat.sub_finite, h, GLfloat.add_finite]
    have e : x + (y - x) = y := by ring
    rw [e, hy]

set_option exponentiation.threshold 1000 in
set_option maxRecDepth 4000 in
/-- Witness of C1: the GLfloat numbers 3 and 5, whose difference is exact. -/
theorem lerp_float_endpoints_witness :
    (GLfloat.round (3 * 2 ^ 149) 149 = GLfloat.finite (3 * 2 ^ 149)
      ∧ GLfloat.round (5 * 2 ^ 149) 149 = GLfloat.finite (5 * 2 ^ 149)
      ∧ GLfloat.finite (5 * 2 ^ 149) - GLfloat.finite (3 * 2 ^ 149)
          = GLfloat.finite (5 * 2 ^ 149 - 3 * 2 ^ 149))
    ∧ lerp (GLfloat.finite (3 * 2 ^ 149)) (GLfloat.finite (5 * 2 ^ 149)) (GLfloat.ofInt 1)
        = GLfloat.finite (5 * 2 ^ 149) :=
  ⟨by decide, (lerp_float_endpoints (3 * 2 ^ 149) (5 * 2 ^ 149) (by decide) (by decide)).2
    (by decide)⟩

/-! ## The kernel vectors and the unit hemisphere -/

theorem kernelScale_bounds {α : Type} [LinearOrderedField α] (i : Nat) (hi : i < 64) :
    (0 : α) ≤ kernelScale i ∧ (kernelScale i : α) ≤ 1 := by
  have h0 : (0 : α) ≤ (i : α) := Nat.cast_nonneg i
  have h1 : (i : α) ≤ 64 := by exact_mod_cast hi.le
  have h2 : (0 : α) ≤ (i : α) / 64 := by positivity
  have h3 : (i : α) / 64 ≤ 1 := by
    rw [div_le_one (by norm_num)]
    exact h1
  have h4 : (0 : α) ≤ (i : α) / 64 * ((i : α) / 64) := mul_nonneg h2 h2
  have h5 : (i : α) / 64 * ((i : α) / 64) ≤ 1 := by
    calc (i : α) / 64 * ((i : α) / 64) ≤ 1 * 1 := mul_le_mul h3 h3 h2 zero_le_one
      _ = 1 := one_mul 1
  rw [kernelScale_eq]
  constructor
  · have : (0 : α) ≤ (i : α) / 64 * ((i : α) / 64) * (1 - 1 / 10) :=
      mul_nonneg h4 (by norm_num)
    linarith [this, (by norm_num : (0 : α) ≤ 1 / 10)]
  · have : (i : α) / 64 * ((i : α) / 64) * (1 - 1 / 10) ≤ 1 * (1 - 1 / 10) :=
      mul_le_mul_of_nonneg_right h5 (by norm_num)
    linarith

theorem ArgOrder.assign_z_nonneg {α : Type} [LinearOrderedField α] (o : ArgOrder)
    (a b c : α) (ha : 0 ≤ a) (hb : 0 ≤ b) (hc : 0 ≤ c) : 0 ≤ (o.assign a b c).z := by
  cases o <;> assumption

theorem kernelEntry_eq {α : Type} [Field α] [DecidableEq α] (ev : ArgEval)
    (inversesqrt : α → α) (d : Nat → α) (i : Nat) :
    kernelEntry ev inversesqrt d i
      = ((normalize inversesqrt (kernelSample ev d i)).map
          (fun v => v.smul (d (4 * i + 3)))).map (fun v => v.smul (kernelScale i)) := by
  have e0 : 0 + 4 * i = 4 * i := by omega
  have e1 : 0 + 1 + 4 * i = 4 * i + 1 := by omega
  have e2 : 0 + 1 + 1 + 4 * i = 4 * i + 2 := by omega
  have e3 : 0 + 1 + 1 + 1 + 4 * i = 4 * i + 3 := by omega
  simp only [kernelEntry, kernelBody, randomFloats, kernelSample, e0, e1, e2, e3]

/-- A sample of squared length 0 is stored as the NaN vector. -/
theorem kernelEntry_of_zero_sample {α : Type} [Field α] [DecidableEq α] (ev : ArgEval)
    (inversesqrt : α → α) (d : Nat → α) (i : Nat)
    (h : (kernelSample ev d i).normSq = 0) : kernelEntry ev inversesqrt d i = none := by
  rw [kernelEntry_eq]
  have h2 : (kernelSample ev d i).dot (kernelSample ev d i) = 0 := h
  simp [normalize, h2]

/-- When the inverse square root is exact and the draws lie in [0,1], a
kernel vector whose sample has a positive squared length lies in the unit
hemisphere, whatever the evaluation order is. -/
theorem kernelEntry_inUnitHemisphere {α : Type} [LinearOrderedField α] [DecidableEq α]
    (ev : ArgEval) (inversesqrt : α → α)
    (hsqrt : ∀ x, 0 < x → 0 ≤ inversesqrt x ∧ inversesqrt x * inversesqrt x * x = 1)
    (d : Nat → α) (hd : ∀ n, 0 ≤ d n ∧ d n ≤ 1) (i : Nat) (hi : i < 64)
    (hpos : 0 < (kernelSample ev d i).normSq) :
    inUnitHemisphere (kernelEntry ev inversesqrt d i) := by
  rw [kernelEntry_eq]
  obtain ⟨hs0, hs1⟩ : (0 : α) ≤ kernelScale i ∧ (kernelScale i : α) ≤ 1 :=
    kernelScale_bounds i hi
  generalize (kernelScale i : α) = sc at hs0 hs1
  obtain ⟨hr0, hr1⟩ := hd (4 * i + 3)
  generalize d (4 * i + 3) = r at hr0 hr1
  have hc0 : 0 ≤ (kernelSample ev d i).z :=
    ArgOrder.assign_z_nonneg (ev.kernel i) _ _ _ (hd _).1 (hd _).1 (hd _).1
  have hdot : 0 < (kernelSample ev d i).dot (kernelSample ev d i) := hpos
  generalize kernelSample ev d i = v at hc0 hdot
  obtain ⟨a, b, c⟩ := v
  simp only [Vec3.dot] at hdot
  obtain ⟨hk0, hk1⟩ := hsqrt _ hdot
  simp only [normalize, Vec3.dot, if_neg hdot.ne', Option.map_some', Vec3.smul,
    inUnitHemisphere, Vec3.normSq]
  generalize inversesqrt (a * a + b * b + c * c) = k at hk0 hk1
  have hrs0 : 0 ≤ r * sc := mul_nonneg hr0 hs0
  have hrs1 : r * sc ≤ 1 := by
    calc r * sc ≤ 1 * 1 := mul_le_mul hr1 hs1 hs0 zero_le_one
      _ = 1 := one_mul 1
  constructor
  · have hEq : a * k * r * sc * (a * k * r * sc) + b * k * r * sc * (b * k * r * sc)
        + c * k * r * sc * (c * k * r * sc)
        = (k * k * (a * a + b * b + c * c)) * ((r * sc) * (r * sc)) := by ring
    rw [hEq, hk1, one_mul]
    calc r * sc * (r * sc) ≤ 1 * 1 := mul_le_mul hrs1 hrs1 hrs0 zero_le_one
      _ = 1 := one_mul 1
  · have : c * k * r * sc = (c * k) * (r * sc) := by ring
    rw [this]
    exact mul_nonneg (mul_nonneg hc0 hk0) hrs0

theorem zeroSampleDrawsAt_normSq (ev : ArgEval) :
    (kernelSample ev (zeroSampleDrawsAt (ev.kernel 0)) 0).normSq = 0 := by
  cases h : ev.kernel 0 <;>
    norm_num [kernelSample, h, ArgOrder.assign, zeroSampleDrawsAt, ArgOrder.zPosition,
      Vec3.normSq, Vec3.dot]

/-- C3, as stated, fails, whatever the order is in which the three draws of
line 637 are evaluated: the draws of `zeroSampleDrawsAt` lie in [0,1] and give
x = y = 0.5 and z = 0 in the first iteration, the first kernel vector that
`ssaoSetup` stores is then the NaN vector, and so under no evaluation order
do all kernel vectors lie in the unit hemisphere for all draws in [0,1]. -/
theorem kernel_zero_sample_nan :
    (∀ (o : ArgOrder) (n : Nat), 0 ≤ zeroSampleDrawsAt o n ∧ zeroSampleDrawsAt o n ≤ 1)
    ∧ (∀ (ev : ArgEval) (inversesqrt : ℚ → ℚ) (env : RunEnv),
        (mainSetup ev inversesqrt (zeroSampleDrawsAt (ev.kernel 0)) env).ssaoKernel[0]?
          = some none)
    ∧ ¬ ∃ ev : ArgEval, ∀ (inversesqrt : ℚ → ℚ) (d : Nat → ℚ) (env : RunEnv),
        (∀ n, 0 ≤ d n ∧ d n ≤ 1) →
        ∀ v ∈ (mainSetup ev inversesqrt d env).ssaoKernel, inUnitHemisphere v := by
  have hrange : ∀ (o : ArgOrder) (n : Nat),
      0 ≤ zeroSampleDrawsAt o n ∧ zeroSampleDrawsAt o n ≤ 1 := by
    intro o n
    unfold zeroSampleDrawsAt
    split <;> norm_num
  have hnan : ∀ (ev : ArgEval) (inversesqrt : ℚ → ℚ) (env : RunEnv),
      (mainSetup ev inversesqrt (zeroSampleDrawsAt (ev.kernel 0)) env).ssaoKernel[0]?
        = some none := by
    intro ev inversesqrt env
    rw [mainSetup_kernel_get ev inversesqrt _ env 0 (by norm_num),
      kernelEntry_of_zero_sample ev inversesqrt _ 0 (zeroSampleDrawsAt_normSq ev)]
  refine ⟨hrange, hnan, ?_⟩
  rintro ⟨ev, h⟩
  have hm : (none : FVec3 ℚ)
      ∈ (mainSetup ev (fun x => x) (zeroSampleDrawsAt (ev.kernel 0)) envA).ssaoKernel :=
    List.getElem?_mem (hnan ev (fun x => x) envA)
  exact h (fun x => x) _ envA (hrange _) none hm

/-- C3, amended (exact arithmetic, exact inverse square root): for every
sequence of draws in [0,1] and every evaluation order, if the squared length
of each of the 64 samples is at least 2^-126, the least normal GLfloat, every
kernel vector lies in the unit hemisphere.  The sample with x = y = 0.5 and
z = 0 is left out: its squared length is 0. -/
theorem kernel_in_hemisphere {α : Type} [LinearOrderedField α] [DecidableEq α]
    (ev : ArgEval) (inversesqrt : α → α)
    (hsqrt : ∀ x, 0 < x → 0 ≤ inversesqrt x ∧ inversesqrt x * inversesqrt x * x = 1)
    (d : Nat → α) (hd : ∀ n, 0 ≤ d n ∧ d n ≤ 1) (env : RunEnv)
    (hbig : ∀ i, i < 64 → 1 / 2 ^ 126 ≤ (kernelSample ev d i).normSq) :
    ∀ v ∈ (mainSetup ev inversesqrt d env).ssaoKernel, inUnitHemisphere v := by
  intro v hv
  rw [mainSetup, ssaoSetup_ssaoKernel] at hv
  simp only [initialGlobals, List.nil_append, List.mem_map, List.mem_range] at hv
  obtain ⟨i, hi, rfl⟩ := hv
  have hpos : (0 : α) < 1 / 2 ^ 126 := by positivity
  exact kernelEntry_inUnitHemisphere ev inversesqrt hsqrt d hd i hi
    (lt_of_lt_of_le hpos (hbig i hi))

theorem Real.inversesqrt_exact (x : ℝ) (hx : 0 < x) :
    0 ≤ (Real.sqrt x)⁻¹ ∧ (Real.sqrt x)⁻¹ * (Real.sqrt x)⁻¹ * x = 1 := by
  have h1 : Real.sqrt x * Real.sqrt x = x := Real.mul_self_sqrt hx.le
  have h2 : Real.sqrt x ≠ 0 := (Real.sqrt_pos.mpr hx).ne'
  refine ⟨inv_nonneg.mpr (Real.sqrt_nonneg x), ?_⟩
  calc (Real.sqrt x)⁻¹ * (Real.sqrt x)⁻¹ * x
      = (Real.sqrt x)⁻¹ * (Real.sqrt x)⁻¹ * (Real.sqrt x * Real.sqrt x) := by rw [h1]
    _ = ((Real.sqrt x)⁻¹ * Real.sqrt x) * ((Real.sqrt x)⁻¹ * Real.sqrt x) := by ring
    _ = 1 := by rw [inv_mul_cancel₀ h2, one_mul]

theorem axisDraws_range (n : Nat) : (0 : ℝ) ≤ axisDraws n ∧ (axisDraws n : ℝ) ≤ 1 := by
  unfold axisDraws
  split <;> norm_num

theorem axisDraws_normSq (i : Nat) :
    (kernelSample leftToRight (axisDraws : Nat → ℝ) i).normSq = 1 := by
  have h0 : (4 * i) % 4 ≠ 2 := by omega
  have h1 : (4 * i + 1) % 4 ≠ 2 := by omega
  have h2 : (4 * i + 2) % 4 = 2 := by omega
  simp only [kernelSample, leftToRight, ArgOrder.assign, axisDraws, Vec3.normSq, Vec3.dot,
    if_neg h0, if_neg h1, if_pos h2]
  norm_num

/-- Witness of C3 over the reals, with the exact inverse square root, left to
right evaluation and the draws of `axisDraws`, in [0,1], whose samples are all
(0, 0, 1). -/
theorem kernel_in_hemisphere_witness :
    ((∀ n : Nat, (0 : ℝ) ≤ axisDraws n ∧ (axisDraws n : ℝ) ≤ 1)
      ∧ (∀ i, i < 64 →
          (1 : ℝ) / 2 ^ 126 ≤ (kernelSample leftToRight (axisDraws : Nat → ℝ) i).normSq))
    ∧ inUnitHemisphere (kernelEntry leftToRight (fun x : ℝ => (Real.sqrt x)⁻¹) axisDraws 5) := by
  have hbig : ∀ i, i < 64 →
      (1 : ℝ) / 2 ^ 126 ≤ (kernelSample leftToRight (axisDraws : Nat → ℝ) i).normSq := by
    intro i _
    rw [axisDraws_normSq]
    have : (1 : ℝ) ≤ 2 ^ 126 := one_le_pow₀ (by norm_num)
    exact (div_le_one (by positivity)).mpr this
  refine ⟨⟨axisDraws_range, hbig⟩, ?_⟩
  apply kernel_in_hemisphere leftToRight (fun x : ℝ => (Real.sqrt x)⁻¹)
    Real.inversesqrt_exact axisDraws axisDraws_range envA hbig
  rw [mainSetup, ssaoSetup_ssaoKernel]
  simp only [initialGlobals, List.nil_append, List.mem_map, List.mem_range]
  exact ⟨5, by norm_num, rfl⟩

/-! ## Reproducibility of `ssaoSetup` -/

/-- C10, as stated, fails with the engine of libstdc++, whose
default-constructed engines all start from the seed 1: there are no two runs
of the program, whatever their clock and entropy and whatever the evaluation
order, in which `ssaoSetup` produces different kernels or different noise
tiles. -/
theorem ssaoSetup_no_run_dependence :
    minstdRand0.SameStart
    ∧ ¬ ∃ (ev : ArgEval) (inversesqrt : ℚ → ℚ) (e1 e2 : RunEnv),
        (runSetup ev inversesqrt minstdRand0 e1).ssaoKernel
            ≠ (runSetup ev inversesqrt minstdRand0 e2).ssaoKernel
        ∨ (runSetup ev inversesqrt minstdRand0 e1).ssaoNoise
            ≠ (runSetup ev inversesqrt minstdRand0 e2).ssaoNoise := by
  refine ⟨fun _ _ => rfl, ?_⟩
  rintro ⟨ev, inversesqrt, e1, e2, h | h⟩
  · exact h rfl
  · exact h rfl

/-- C10, amended: `ssaoSetup` default-constructs its generator and passes it
neither a seed nor the time, so with every library in which all
default-constructed engines start in the same state, as the C++ standard
requires, two runs produce the same kernel and the same noise tile. -/
theorem ssaoSetup_reproducible {α : Type} [Field α] [DecidableEq α]
    (ev : ArgEval) (inversesqrt : α → α) (E : Engine α) (hE : E.SameStart)
    (e1 e2 : RunEnv) :
    (runSetup ev inversesqrt E e1).ssaoKernel = (runSetup ev inversesqrt E e2).ssaoKernel
    ∧ (runSetup ev inversesqrt E e1).ssaoNoise
        = (runSetup ev inversesqrt E e2).ssaoNoise := by
  unfold runSetup mainSetup
  rw [hE e1 e2]
  exact ⟨rfl, rfl⟩

/-- Witness of C10: the engine of libstdc++ and two runs that differ in clock
and entropy. -/
theorem ssaoSetup_reproducible_witness :
    minstdRand0.SameStart
    ∧ (runSetup rightToLeft (fun x => x) minstdRand0 envA).ssaoKernel
        = (runSetup rightToLeft (fun x => x) minstdRand0 envB).ssaoKernel :=
  ⟨fun _ _ => rfl,
    (ssaoSetup_reproducible rightToLeft (fun x => x) minstdRand0 (fun _ _ => rfl)
      envA envB).1⟩

theorem clockEngine_draws (x n : Nat) :
    clockEngine.draws x n = 1 / (((x + n : Nat) : ℚ) + 1) := by
  induction n generalizing x with
  | zero => simp [Engine.draws, clockEngine]
  | succ n ih =>
    show clockEngine.draws (x + 1) n = _
    rw [ih]
    congr 3
    omega

/-- The rule of the standard is needed for reproducibility: with a library
whose default-constructed engine starts from the clock, two runs at different
times produce different noise tiles. -/
theorem clockEngine_runs_differ (ev : ArgEval) (inversesqrt : ℚ → ℚ) :
    ¬ clockEngine.SameStart
    ∧ (runSetup ev inversesqrt clockEngine envA).ssaoNoise
        ≠ (runSetup ev inversesqrt clockEngine envB).ssaoNoise := by
  constructor
  · intro h
    have := h envA envB
    simp [clockEngine, envA, envB] at this
  · intro h
    unfold runSetup mainSetup at h
    rw [ssaoSetup_ssaoNoise, ssaoSetup_ssaoNoise] at h
    have h0 := congrArg (fun l => l[0]?) h
    simp only [initialGlobals, List.nil_append, List.getElem?_map,
      List.getElem?_range (show 0 < 16 by norm_num), Option.map_some', Option.some.injEq]
      at h0
    have hx := congrArg Vec3.x h0
    have hy := congrArg Vec3.y h0
    simp only [noiseEntry, noiseBody, randomFloats, clockEngine_draws] at hx hy
    cases hb : (ev.noise 0).xBeforeY
    · simp [hb, clockEngine, envA, envB] at hy
    · simp [hb, clockEngine, envA, envB] at hx

end GLEngine
